import Mathlib

/-!
Verification development for the Hex Redshift→Databricks migration tool
(`hex_migrate_redshift_to_databricks.py`), shallowly embedded in Lean.

The embedding mirrors the Python module top to bottom:
* a small backtracking regular-expression engine reproducing the `re`
  subset the module uses (`re.search`, `re.sub`, `re.fullmatch` with
  IGNORECASE / DOTALL, capture groups, lazy quantifiers, word boundaries,
  one negative lookahead);
* the schema-mapping store (`load_schema_mappings`,
  `get_hardcoded_schema_map`) and the two schema rewriters
  (`rewrite_schema_qualification`, `rewrite_table_references`);
* the SQL rewrite passes (`auto_fix_databricks_issues`,
  `apply_csv_function_mappings`, `add_comprehensive_function_mappings`,
  `SQL_SIMPLE_REWRITES`, `rewrite_complex_functions` with its hand-written
  `replace_dateadd` / `replace_datediff` scanners,
  `add_inline_warnings_to_sql`) and their composition `apply_sql_rewrites`;
* the YAML document transformer `transform_hex_yaml`.

Python exceptions are modelled with `Except`; Python `None` flowing out of
a function that falls off the end without `return` is modelled with
`Option`.  Python dicts of known shape are modelled as structures whose
fields are `Option`-valued (`none` = key absent), with an `extra` field
recording unmodelled keys so dict truthiness is preserved.
-/

set_option maxRecDepth 200000

namespace HexMig

/-- Python exceptions the embedded code can raise. -/
inductive PyErr where
  | typeError
  | attributeError
deriving DecidableEq, Repr

deriving instance DecidableEq for Except

/-! ### String helpers mirroring Python `str` methods (ASCII inputs) -/

/-- ASCII word character, Python `\w` / `[A-Za-z0-9_]` on ASCII text. -/
def isWordChar (c : Char) : Bool :=
  ('A' ≤ c && c ≤ 'Z') || ('a' ≤ c && c ≤ 'z') || ('0' ≤ c && c ≤ '9') || c = '_'

/-- Python whitespace (`\s` and `str.strip`): space, tab, newline, CR, VT, FF. -/
def isPySpace (c : Char) : Bool :=
  c = ' ' || c = '\t' || c = '\n' || c = '\r' || c = Char.ofNat 11 || c = Char.ofNat 12

/-- Python `str.strip()` (no argument): drop whitespace from both ends. -/
def pstrip (s : String) : String :=
  String.mk (((s.toList.dropWhile isPySpace).reverse.dropWhile isPySpace).reverse)

/-- Python `str.lower()` (ASCII text). -/
def pyLower (s : String) : String := String.mk (s.toList.map Char.toLower)

/-- Python `str.upper()` (ASCII text). -/
def pyUpper (s : String) : String := String.mk (s.toList.map Char.toUpper)

def replListAux (pat rep : List Char) : Nat → List Char → List Char
  | 0, l => l
  | fuel + 1, l =>
    if pat.isPrefixOf l then rep ++ replListAux pat rep fuel (l.drop pat.length)
    else
      match l with
      | [] => []
      | c :: rest => c :: replListAux pat rep fuel rest

/-- Python `str.replace(pat, rep)` for non-empty `pat`: leftmost,
non-overlapping. -/
def pyReplace (s pat rep : String) : String :=
  String.mk (replListAux pat.toList rep.toList (s.toList.length + 1) s.toList)

def splitOnAuxL (sep : List Char) : Nat → List Char → List Char → List (List Char)
  | 0, cur, l => [cur.reverse ++ l]
  | _ + 1, cur, [] => [cur.reverse]
  | fuel + 1, cur, c :: rest =>
    if sep.isPrefixOf (c :: rest) then
      cur.reverse :: splitOnAuxL sep fuel [] ((c :: rest).drop sep.length)
    else splitOnAuxL sep fuel (c :: cur) rest

/-- Python `str.split(sep)` for a non-empty separator. -/
def pySplit (s sep : String) : List String :=
  (splitOnAuxL sep.toList (s.toList.length + 1) [] s.toList).map String.mk

/-- Python `sep.join(parts)`. -/
def pyJoin (sep : String) : List String → String
  | [] => ""
  | [x] => x
  | x :: y :: rest => x ++ sep ++ pyJoin sep (y :: rest)

/-- Python `str.startswith(p)`. -/
def pyStartsWith (s p : String) : Bool := p.toList.isPrefixOf s.toList

/-- Python `str.strip(c)` for a single-character argument. -/
def stripChar (c : Char) (s : String) : String :=
  String.mk (((s.toList.dropWhile (· = c)).reverse.dropWhile (· = c)).reverse)

/-- Occurrence test used for Python `needle in hay` on strings. -/
def containsAux (needle : List Char) : List Char → Bool
  | [] => needle.isEmpty
  | c :: rest => List.isPrefixOf needle (c :: rest) || containsAux needle rest

/-- Python `needle in hay` for strings. -/
def strContainsSub (hay needle : String) : Bool :=
  containsAux needle.toList hay.toList

/-! ### A backtracking regular-expression engine (the Python `re` subset used)

Patterns are embedded as `RE` terms and run through a continuation-passing
backtracking matcher which reproduces Python's leftmost /
greedy-with-backtracking / lazy semantics for this subset.  The matcher is
fuelled; the wrappers pass fuel that is amply sufficient for every pattern
used (every starred sub-pattern consumes at least one character per
iteration, so the backtracking depth is bounded by
`input length × pattern size`). -/

structure ReFlags where
  ci : Bool := false
  dotAll : Bool := false
deriving DecidableEq, Repr

inductive RE where
  | eps
  | ch (c : Char)
  | dot
  | cls (neg : Bool) (ranges : List (Char × Char))
  | seq (a b : RE)
  | alt (a b : RE)
  | star (lazy : Bool) (r : RE)
  | opt (lazy : Bool) (r : RE)
  | group (n : Nat) (r : RE)
  | wordB
  | nla (r : RE)
deriving Repr

/-- Captured groups, most recent first; `capGet` returns the latest value. -/
abbrev Caps := List (Nat × String)

def capGet (caps : Caps) (n : Nat) : String :=
  match caps.find? (fun p => p.1 = n) with
  | some p => p.2
  | none => ""

def inRanges (c : Char) (rs : List (Char × Char)) : Bool :=
  rs.any (fun p => p.1 ≤ c && c ≤ p.2)

def clsMatches (fl : ReFlags) (neg : Bool) (rs : List (Char × Char)) (c : Char) : Bool :=
  let base := inRanges c rs || (fl.ci && (inRanges c.toLower rs || inRanges c.toUpper rs))
  if neg then !base else base

def chMatches (fl : ReFlags) (p c : Char) : Bool :=
  p = c || (fl.ci && p.toLower = c.toLower)

def sliceStr (inp : List Char) (a b : Nat) : String :=
  String.mk ((inp.drop a).take (b - a))

def isWordAt (inp : List Char) (i : Nat) : Bool :=
  match inp.get? i with
  | some c => isWordChar c
  | none => false

/-- Python `\b`: word-ness differs between the previous and current position. -/
def atBoundary (inp : List Char) (i : Nat) : Bool :=
  isWordAt inp i != (if i = 0 then false else isWordAt inp (i - 1))

def mtch (fl : ReFlags) (inp : List Char) :
    Nat → RE → Nat → Caps → (Nat → Caps → Option (Nat × Caps)) → Option (Nat × Caps)
  | 0, _, _, _, _ => none
  | fuel + 1, re, pos, caps, k =>
    match re with
    | .eps => k pos caps
    | .ch c =>
      match inp.get? pos with
      | some cur => if chMatches fl c cur then k (pos + 1) caps else none
      | none => none
    | .dot =>
      match inp.get? pos with
      | some cur => if fl.dotAll || cur ≠ '\n' then k (pos + 1) caps else none
      | none => none
    | .cls neg rs =>
      match inp.get? pos with
      | some cur => if clsMatches fl neg rs cur then k (pos + 1) caps else none
      | none => none
    | .seq a b => mtch fl inp fuel a pos caps (fun p1 c1 => mtch fl inp fuel b p1 c1 k)
    | .alt a b =>
      match mtch fl inp fuel a pos caps k with
      | some res => some res
      | none => mtch fl inp fuel b pos caps k
    | .star lz r =>
      if lz then
        match k pos caps with
        | some res => some res
        | none =>
          mtch fl inp fuel r pos caps (fun p1 c1 =>
            if p1 = pos then none else mtch fl inp fuel (.star lz r) p1 c1 k)
      else
        match mtch fl inp fuel r pos caps (fun p1 c1 =>
            if p1 = pos then none else mtch fl inp fuel (.star lz r) p1 c1 k) with
        | some res => some res
        | none => k pos caps
    | .opt lz r =>
      if lz then
        match k pos caps with
        | some res => some res
        | none => mtch fl inp fuel r pos caps k
      else
        match mtch fl inp fuel r pos caps k with
        | some res => some res
        | none => k pos caps
    | .group n r =>
      mtch fl inp fuel r pos caps (fun p1 c1 => k p1 ((n, sliceStr inp pos p1) :: c1))
    | .wordB => if atBoundary inp pos then k pos caps else none
    | .nla r =>
      match mtch fl inp fuel r pos caps (fun p c => some (p, c)) with
      | some _ => none
      | none => k pos caps

def reSize : RE → Nat
  | .eps => 1
  | .ch _ => 1
  | .dot => 1
  | .cls _ _ => 1
  | .seq a b => reSize a + reSize b + 1
  | .alt a b => reSize a + reSize b + 1
  | .star _ r => reSize r + 1
  | .opt _ r => reSize r + 1
  | .group _ r => reSize r + 1
  | .wordB => 1
  | .nla r => reSize r + 1

def reFuel (r : RE) (inp : List Char) : Nat :=
  (inp.length + 2) * (reSize r + 2) * 2 + 64

def searchAux (fl : ReFlags) (r : RE) (inp : List Char) :
    Nat → Nat → Option (Nat × Nat × Caps)
  | 0, _ => none
  | fuel + 1, pos =>
    if pos > inp.length then none
    else
      match mtch fl inp (reFuel r inp) r pos [] (fun p c => some (p, c)) with
      | some (e, caps) => some (pos, e, caps)
      | none => searchAux fl r inp fuel (pos + 1)

/-- Python `re.search` from a starting offset: leftmost match as
`(begin, end, captures)`. -/
def reSearchFrom (fl : ReFlags) (r : RE) (inp : List Char) (start : Nat) :
    Option (Nat × Nat × Caps) :=
  searchAux fl r inp (inp.length + 1 - start) start

/-- Python `bool(re.search(r, s, flags))`. -/
def reSearch (fl : ReFlags) (r : RE) (s : String) : Bool :=
  (reSearchFrom fl r s.toList 0).isSome

/-- Python `bool(re.fullmatch(r, s, flags))`. -/
def reFullmatch (fl : ReFlags) (r : RE) (s : String) : Bool :=
  let inp := s.toList
  (mtch fl inp (reFuel r inp) r 0 []
    (fun p c => if p = inp.length then some (p, c) else none)).isSome

def subAux (fl : ReFlags) (r : RE) (f : String → Caps → String) (inp : List Char) :
    Nat → Nat → String → String
  | 0, pos, acc => acc ++ sliceStr inp pos inp.length
  | fuel + 1, pos, acc =>
    match reSearchFrom fl r inp pos with
    | none => acc ++ sliceStr inp pos inp.length
    | some (b, e, caps) =>
      let acc1 := acc ++ sliceStr inp pos b ++ f (sliceStr inp b e) caps
      if e > b then subAux fl r f inp fuel e acc1
      else if b < inp.length then subAux fl r f inp fuel (b + 1) (acc1 ++ sliceStr inp b (b + 1))
      else acc1

/-- Python `re.sub(r, f, s, flags)` with a callable replacement. -/
def reSubF (fl : ReFlags) (r : RE) (f : String → Caps → String) (s : String) : String :=
  let inp := s.toList
  subAux fl r f inp (inp.length + 2) 0 ""

/-- A Python replacement-template item: a literal piece or a `\n` group reference. -/
inductive TmplItem where
  | lit : String → TmplItem
  | ref : Nat → TmplItem

def applyTmpl (t : List TmplItem) (whole : String) (caps : Caps) : String :=
  t.foldl (fun acc it =>
    acc ++ (match it with
      | .lit l => l
      | .ref 0 => whole
      | .ref n => capGet caps n)) ""

/-- Python `re.sub(r, template, s, flags)` with a template string. -/
def reSubT (fl : ReFlags) (r : RE) (t : List TmplItem) (s : String) : String :=
  reSubF fl r (applyTmpl t) s

/-! #### Pattern-building helpers -/

def rcat (l : List RE) : RE := l.foldr .seq .eps

def rstr (s : String) : RE := rcat (s.toList.map .ch)

def rplus (r : RE) : RE := .seq r (.star false r)

def rplusL (r : RE) : RE := .seq r (.star true r)

/-- `\s` -/
def rwsCls : RE :=
  .cls false [(' ', ' '), ('\t', '\t'), ('\n', '\n'), ('\r', '\r'),
    (Char.ofNat 11, Char.ofNat 11), (Char.ofNat 12, Char.ofNat 12)]

/-- `\s*` -/
def rws0 : RE := .star false rwsCls

/-- `\s+` -/
def rws1 : RE := rplus rwsCls

/-- `[A-Za-z0-9_]`, i.e. `\w` on ASCII -/
def wCls : RE := .cls false [('A', 'Z'), ('a', 'z'), ('0', '9'), ('_', '_')]

/-- `\w+` -/
def rw1 : RE := rplus wCls

/-- `\d+` -/
def rd1 : RE := rplus (.cls false [('0', '9')])

/-- `[^)]` -/
def nParen : RE := .cls true [(')', ')')]

/-- `[^,]` -/
def nComma : RE := .cls true [(',', ',')]

/-- `[^']` -/
def nQuote : RE := .cls true [('\'', '\'')]

/-- `[^"]` -/
def nDQuote : RE := .cls true [('"', '"')]

def ciFlags : ReFlags := { ci := true }

def ciDotAll : ReFlags := { ci := true, dotAll := true }

/-! ### `SQL_SIMPLE_REWRITES` (simple token-level rewrites, applied with
`re.sub(pat, repl, out, flags=re.IGNORECASE)` in order) -/

def SQL_SIMPLE_REWRITES : List (RE × List TmplItem) :=
  [ (rcat [.wordB, rstr "NVL", rws0, .ch '('], [.lit "COALESCE("]),
    (rcat [.wordB, rstr "IFNULL", rws0, .ch '('], [.lit "COALESCE("]),
    (rcat [.wordB, rstr "CURRENT_DATE", .wordB, rws0, .ch '(', rws0, .ch ')'],
      [.lit "CURRENT_DATE()"]),
    (rcat [.wordB, rstr "CURRENT_DATE", .wordB, .nla (rcat [rws0, .ch '('])],
      [.lit "CURRENT_DATE()"]),
    (rcat [.wordB, rstr "CURRENT_TIMESTAMP", .wordB, rws0, .ch '(', rws0, .ch ')'],
      [.lit "CURRENT_TIMESTAMP()"]),
    (rcat [.wordB, rstr "CURRENT_TIMESTAMP", .wordB, .nla (rcat [rws0, .ch '('])],
      [.lit "CURRENT_TIMESTAMP()"]),
    (rcat [rstr "::varchar", .wordB], [.lit "::string"]),
    (rcat [.wordB, rstr "CAST", rws0, .ch '(', rws0, .group 1 (.star true nParen), rws1,
        rstr "AS", rws1, rstr "VARCHAR",
        .opt false (.group 2 (rcat [rws0, .ch '(', rws0, rd1, rws0, .ch ')'])), rws0, .ch ')'],
      [.lit "CAST(", .ref 1, .lit " AS STRING)"]),
    (rcat [.wordB, rstr "STRPOS", rws0, .ch '('], [.lit "INSTR("]),
    (rcat [.wordB, rstr "REGEXP_SUBSTR", rws0, .ch '('], [.lit "REGEXP_EXTRACT("]),
    (rcat [.wordB, rstr "REGEXP_INSTR", rws0, .ch '('], [.lit "REGEXP_INSTR("]),
    (rcat [.wordB, rstr "REGEXP_REPLACE", rws0, .ch '('], [.lit "REGEXP_REPLACE("]),
    (rcat [.wordB, rstr "SPLIT_TO_ARRAY", rws0, .ch '('], [.lit "SPLIT("]) ]

/-- `apply_csv_function_mappings`: only entries whose key mentions VARCHAR act;
CURRENT_DATE / CURRENT_TIMESTAMP entries are skipped and all others are inert. -/
def apply_csv_function_mappings (fm : List (String × String)) (sql : String) : String :=
  fm.foldl (fun out e =>
    if e.1 ≠ "" ∧ e.2 ≠ "" then
      if strContainsSub e.1 "VARCHAR" then
        reSubT ciFlags (rcat [.wordB, rstr "VARCHAR", .wordB]) [.lit "STRING"] out
      else out
    else out) sql

/-- `QUALIFY_PATTERN = re.compile(r'QUALIFY\b', re.IGNORECASE)` -/
def QUALIFY_PATTERN : RE := rcat [rstr "QUALIFY", .wordB]

/-! ### `rewrite_complex_functions` -/

/-- `\bDATE_TRUNC\s*\(\s*'(\w+)'\s*,\s*(.*?)\)` -/
def dtTruncPat : RE :=
  rcat [.wordB, rstr "DATE_TRUNC", rws0, .ch '(', rws0, .ch '\'', .group 1 rw1, .ch '\'',
    rws0, .ch ',', rws0, .group 2 (.star true .dot), .ch ')']

def dtTruncRepl (_ : String) (caps : Caps) : String :=
  "date_trunc('" ++ pyUpper (capGet caps 1) ++ "', " ++ capGet caps 2 ++ ")"

/-- `\bDATEADD\s*\(` -/
def dateaddPat : RE := rcat [.wordB, rstr "DATEADD", rws0, .ch '(']

/-- `\bDATEDIFF\s*\(` -/
def datediffPat : RE := rcat [.wordB, rstr "DATEDIFF", rws0, .ch '(']

/-- The `while j < len(text) and paren_count > 0` scan of `replace_dateadd` /
`replace_datediff`: returns the final `j` and remaining count. -/
def scanParen (inp : List Char) : Nat → Nat → Nat → Nat × Nat
  | 0, j, count => (j, count)
  | fuel + 1, j, count =>
    if j < inp.length ∧ 0 < count then
      let c := (inp.get? j).getD ' '
      let count2 := if c = '(' then count + 1 else if c = ')' then count - 1 else count
      scanParen inp fuel (j + 1) count2
    else (j, count)

/-- The top-level-comma argument split of `replace_dateadd` / `replace_datediff`. -/
def splitTopCommaAux : List Char → Int → List Char → List String → List String
  | [], _, cur, acc =>
    (if cur.isEmpty then acc else pstrip (String.mk cur.reverse) :: acc).reverse
  | c :: rest, depth, cur, acc =>
    if c = '(' then splitTopCommaAux rest (depth + 1) (c :: cur) acc
    else if c = ')' then splitTopCommaAux rest (depth - 1) (c :: cur) acc
    else if c = ',' ∧ depth = 0 then
      splitTopCommaAux rest depth [] (pstrip (String.mk cur.reverse) :: acc)
    else splitTopCommaAux rest depth (c :: cur) acc

def splitTopComma (s : String) : List String := splitTopCommaAux s.toList 0 [] []

/-- `re.fullmatch(r'-\s*\d+', n)` -/
def negIntPat : RE := rcat [.ch '-', rws0, rd1]

/-- `re.sub(r'\s+', '', n)[1:]` -/
def negLiteralClean (n : String) : String :=
  String.mk ((n.toList.filter (fun c => !isPySpace c)).drop 1)

/-- The argument-level replacement logic of `replace_dateadd`. -/
def dateaddReplace (args : List String) (fullCall : String) : String :=
  match args with
  | a0 :: a1 :: a2 :: _ =>
    let part := pyLower a0
    let n := pstrip a1
    let expr := pstrip a2
    if part = "day" ∨ part = "days" then
      if reFullmatch {} negIntPat n then "date_sub(" ++ expr ++ ", " ++ negLiteralClean n ++ ")"
      else "date_add(" ++ expr ++ ", " ++ n ++ ")"
    else if part = "week" ∨ part = "weeks" then
      if reFullmatch {} negIntPat n then
        "date_sub(" ++ expr ++ ", " ++ negLiteralClean n ++ " * 7)"
      else "date_add(" ++ expr ++ ", " ++ n ++ " * 7)"
    else if part = "month" ∨ part = "months" then "add_months(" ++ expr ++ ", " ++ n ++ ")"
    else "DATEADD(" ++ part ++ ", " ++ n ++ ", " ++ expr ++ ")"
  | _ => fullCall

/-- The argument-level replacement logic of `replace_datediff`. -/
def datediffReplace (args : List String) (fullCall : String) : String :=
  match args with
  | a0 :: a1 :: a2 :: _ =>
    let part := pyLower a0
    let d1 := pstrip a1
    let d2 := pstrip a2
    if part = "day" ∨ part = "days" then "datediff(" ++ d2 ++ ", " ++ d1 ++ ")"
    else "DATEDIFF(" ++ part ++ ", " ++ d1 ++ ", " ++ d2 ++ ")"
  | _ => fullCall

/-- The shared scan loop of `replace_dateadd` / `replace_datediff`: search for
the call head, walk forward counting parentheses to the matching close, split
the inner text on top-level commas, replace; on a malformed call keep the
matched head and continue after it.  The recursive call operates on the
remaining slice, exactly like Python's `re.search(pattern, text[i:], ...)`. -/
def callScanAux (pat : RE) (replacer : List String → String → String) :
    Nat → String → String
  | 0, text => text
  | fuel + 1, text =>
    let inp := text.toList
    match reSearchFrom ciFlags pat inp 0 with
    | none => text
    | some (b, e, _) =>
      let pre := sliceStr inp 0 b
      let parenPos := e - 1
      let scanned := scanParen inp (inp.length + 1) (parenPos + 1) 1
      if scanned.2 = 0 then
        let fullCall := sliceStr inp b scanned.1
        let inner := sliceStr inp (parenPos + 1) (scanned.1 - 1)
        pre ++ replacer (splitTopComma inner) fullCall ++
          callScanAux pat replacer fuel (sliceStr inp scanned.1 inp.length)
      else
        pre ++ sliceStr inp b e ++ callScanAux pat replacer fuel (sliceStr inp e inp.length)

def replace_dateadd (text : String) : String :=
  callScanAux dateaddPat dateaddReplace (text.length + 1) text

def replace_datediff (text : String) : String :=
  callScanAux datediffPat datediffReplace (text.length + 1) text

/-- `\bTO_CHAR\s*\(\s*(.+?)\s*,\s*'([^']+)'\s*\)` -/
def toCharPat : RE :=
  rcat [.wordB, rstr "TO_CHAR", rws0, .ch '(', rws0, .group 1 (rplusL .dot), rws0, .ch ',',
    rws0, .ch '\'', .group 2 (rplus nQuote), .ch '\'', rws0, .ch ')']

def TO_CHAR_FMT_MAP : List (String × String) :=
  [("YYYY", "yyyy"), ("YY", "yy"), ("MM", "MM"), ("MON", "MMM"), ("DD", "dd"),
   ("HH24", "HH"), ("HH12", "hh"), ("MI", "mm"), ("SS", "ss")]

def toCharRepl (_ : String) (caps : Caps) : String :=
  let expr := pstrip (capGet caps 1)
  let fmtNew := TO_CHAR_FMT_MAP.foldl (fun acc kv => pyReplace acc kv.1 kv.2) (capGet caps 2)
  "date_format(" ++ expr ++ ", '" ++ fmtNew ++ "')"

/-- `\bTO_DATE\s*\(\s*(.+?)\s*,\s*'([^']+)'\s*\)` -/
def toDatePat : RE :=
  rcat [.wordB, rstr "TO_DATE", rws0, .ch '(', rws0, .group 1 (rplusL .dot), rws0, .ch ',',
    rws0, .ch '\'', .group 2 (rplus nQuote), .ch '\'', rws0, .ch ')']

def toDateRepl (_ : String) (caps : Caps) : String :=
  let expr := pstrip (capGet caps 1)
  let fmt := pyReplace (pyReplace (capGet caps 2) "YYYY" "yyyy") "DD" "dd"
  "to_date(" ++ expr ++ ", '" ++ fmt ++ "')"

/-- `\bJSON_EXTRACT_PATH_TEXT\s*\(\s*([^,]+)\s*,\s*('[^']+'|"[^"]+")\s*\)` -/
def jsonPathPat : RE :=
  rcat [.wordB, rstr "JSON_EXTRACT_PATH_TEXT", rws0, .ch '(', rws0, .group 1 (rplus nComma),
    rws0, .ch ',', rws0,
    .group 2 (.alt (rcat [.ch '\'', rplus nQuote, .ch '\''])
                   (rcat [.ch '"', rplus nDQuote, .ch '"'])),
    rws0, .ch ')']

def jsonPathRepl (_ : String) (caps : Caps) : String :=
  let col := pstrip (capGet caps 1)
  let path := stripChar '"' (stripChar '\'' (pstrip (capGet caps 2)))
  let path2 := if pyStartsWith path "$." then path else "$." ++ path
  "get_json_object(" ++ col ++ ", '" ++ path2 ++ "')"

/-- `\bJSON_EXTRACT_ARRAY_ELEMENT_TEXT\s*\(\s*([^,]+)\s*,\s*([^)]+)\)` -/
def jsonArrPat : RE :=
  rcat [.wordB, rstr "JSON_EXTRACT_ARRAY_ELEMENT_TEXT", rws0, .ch '(', rws0,
    .group 1 (rplus nComma), rws0, .ch ',', rws0, .group 2 (rplus nParen), .ch ')']

def jsonArrRepl (_ : String) (caps : Caps) : String :=
  "get_json_object(" ++ pstrip (capGet caps 1) ++ ", '$[" ++ pstrip (capGet caps 2) ++ "]')"

/-- `\bIS_VALID_JSON_ARRAY\s*\(\s*([^)]+)\)` -/
def isValidJsonArrayPat : RE :=
  rcat [.wordB, rstr "IS_VALID_JSON_ARRAY", rws0, .ch '(', rws0, .group 1 (rplus nParen), .ch ')']

/-- `\bIS_VALID_JSON\s*\(\s*([^)]+)\)` -/
def isValidJsonPat : RE :=
  rcat [.wordB, rstr "IS_VALID_JSON", rws0, .ch '(', rws0, .group 1 (rplus nParen), .ch ')']

/-- `\bJSON_PARSE\s*\(\s*([^)]+)\)` -/
def jsonParsePat : RE :=
  rcat [.wordB, rstr "JSON_PARSE", rws0, .ch '(', rws0, .group 1 (rplus nParen), .ch ')']

/-- `\bLISTAGG\s*\(\s*(.+?)\s*\)\s+WITHIN\s+GROUP\s*\([^)]*\)` -/
def listaggGroupPat : RE :=
  rcat [.wordB, rstr "LISTAGG", rws0, .ch '(', rws0, .group 1 (rplusL .dot), rws0, .ch ')',
    rws1, rstr "WITHIN", rws1, rstr "GROUP", rws0, .ch '(', .star false nParen, .ch ')']

/-- `\bLISTAGG\s*\(\s*(.+?)\s*\)` -/
def listaggPat : RE :=
  rcat [.wordB, rstr "LISTAGG", rws0, .ch '(', rws0, .group 1 (rplusL .dot), rws0, .ch ')']

def listaggRepl (_ : String) (caps : Caps) : String :=
  let args := capGet caps 1
  match (pySplit args ",").map pstrip with
  | col :: d0 :: drest =>
    "concat_ws(" ++ pyJoin "," (d0 :: drest) ++ ", collect_list(" ++ col ++ "))"
  | _ => "STRING_AGG(" ++ args ++ ")"

/-- `\bCONVERT\s*\(\s*(\w+)\s*,\s*(.+?)\s*\)` -/
def convertPat : RE :=
  rcat [.wordB, rstr "CONVERT", rws0, .ch '(', rws0, .group 1 rw1, rws0, .ch ',', rws0,
    .group 2 (rplusL .dot), rws0, .ch ')']

def CONVERT_TYPE_MAPPING : List (String × String) :=
  [("VARCHAR", "STRING"), ("CHAR", "STRING"), ("TEXT", "STRING"), ("INTEGER", "INT"),
   ("BIGINT", "BIGINT"), ("DECIMAL", "DECIMAL"), ("NUMERIC", "DECIMAL"), ("FLOAT", "FLOAT"),
   ("DOUBLE", "DOUBLE"), ("DATE", "DATE"), ("TIMESTAMP", "TIMESTAMP")]

def convertRepl (_ : String) (caps : Caps) : String :=
  let typeName := pyUpper (pstrip (capGet caps 1))
  let expr := pstrip (capGet caps 2)
  let mapped :=
    match CONVERT_TYPE_MAPPING.find? (fun kv => kv.1 = typeName) with
    | some kv => kv.2
    | none => typeName
  "CAST(" ++ expr ++ " AS " ++ mapped ++ ")"

/-- `\bDATEPART\s*\(\s*'(\w+)'\s*,\s*(.+?)\)` -/
def datepartPat : RE :=
  rcat [.wordB, rstr "DATEPART", rws0, .ch '(', rws0, .ch '\'', .group 1 rw1, .ch '\'',
    rws0, .ch ',', rws0, .group 2 (rplusL .dot), .ch ')']

def DATEPART_MAPPING : List (String × String) :=
  [("year", "year"), ("yy", "year"), ("month", "month"), ("mm", "month"), ("day", "day"),
   ("dd", "day"), ("hour", "hour"), ("minute", "minute"), ("second", "second"),
   ("week", "weekofyear"), ("dow", "dayofweek"), ("quarter", "quarter")]

def datepartRepl (whole : String) (caps : Caps) : String :=
  let field := pyLower (capGet caps 1)
  let expr := pstrip (capGet caps 2)
  match DATEPART_MAPPING.find? (fun kv => kv.1 = field) with
  | some kv => kv.2 ++ "(" ++ expr ++ ")"
  | none => whole

/-- `\bEXTRACT\s*\(\s*(\w+)\s+FROM\s+(.+?)\)` -/
def extractPat : RE :=
  rcat [.wordB, rstr "EXTRACT", rws0, .ch '(', rws0, .group 1 rw1, rws1, rstr "FROM", rws1,
    .group 2 (rplusL .dot), .ch ')']

def EXTRACT_MAPPING : List (String × String) :=
  [("year", "year"), ("month", "month"), ("day", "day"), ("dow", "dayofweek"),
   ("hour", "hour"), ("minute", "minute"), ("second", "second"), ("week", "weekofyear"),
   ("quarter", "quarter")]

def extractRepl (whole : String) (caps : Caps) : String :=
  let field := pyLower (capGet caps 1)
  let expr := pstrip (capGet caps 2)
  match EXTRACT_MAPPING.find? (fun kv => kv.1 = field) with
  | some kv => kv.2 ++ "(" ++ expr ++ ")"
  | none => whole

/-- `\bDATEADD\s*\(\s*week\s*,\s*([^,]+)\s*,\s*([^)]+)\)` -/
def dateaddWeekPat : RE :=
  rcat [.wordB, rstr "DATEADD", rws0, .ch '(', rws0, rstr "week", rws0, .ch ',', rws0,
    .group 1 (rplus nComma), rws0, .ch ',', rws0, .group 2 (rplus nParen), .ch ')']

def dateaddWeekRepl (_ : String) (caps : Caps) : String :=
  "date_add(" ++ pstrip (capGet caps 2) ++ ", " ++ pstrip (capGet caps 1) ++ " * 7)"

/-- `rewrite_complex_functions`, applying its sub-rewrites in source order. -/
def rewrite_complex_functions (sql : String) : String :=
  let o := reSubF ciFlags dtTruncPat dtTruncRepl sql
  let o := replace_dateadd o
  let o := replace_datediff o
  let o := reSubF ciFlags toCharPat toCharRepl o
  let o := reSubF ciFlags toDatePat toDateRepl o
  let o := reSubF ciFlags jsonPathPat jsonPathRepl o
  let o := reSubF ciFlags jsonArrPat jsonArrRepl o
  let o := reSubT ciFlags isValidJsonArrayPat
    [.lit "try(from_json(", .ref 1, .lit ", 'array<string>')) IS NOT NULL"] o
  let o := reSubT ciFlags isValidJsonPat
    [.lit "try(from_json(", .ref 1, .lit ", 'map<string,string>')) IS NOT NULL"] o
  let o := reSubT ciFlags jsonParsePat
    [.lit "/* TODO: provide schema */ from_json(", .ref 1, .lit ", '<provide_schema_here>')"] o
  let o := reSubF ciFlags listaggGroupPat listaggRepl o
  let o := reSubF ciFlags listaggPat listaggRepl o
  let o := reSubF ciFlags convertPat convertRepl o
  let o := reSubF ciFlags datepartPat datepartRepl o
  let o := reSubF ciFlags extractPat extractRepl o
  let o := reSubF ciFlags dateaddWeekPat dateaddWeekRepl o
  o

/-! ### `auto_fix_databricks_issues` -/

/-- `\bMOD\s*\(\s*([^,]+)\s*,\s*([^)]+)\s*\)` -/
def modPat : RE :=
  rcat [.wordB, rstr "MOD", rws0, .ch '(', rws0, .group 1 (rplus nComma), rws0, .ch ',', rws0,
    .group 2 (rplus nParen), rws0, .ch ')']

/-- `CAST\s*\(\s*([^)]+)\s+AS\s+REAL\s*\)` -/
def castRealPat : RE :=
  rcat [rstr "CAST", rws0, .ch '(', rws0, .group 1 (rplus nParen), rws1, rstr "AS", rws1,
    rstr "REAL", rws0, .ch ')']

/-- `CAST\s*\(\s*([^)]+)\s+AS\s+DOUBLE\s+PRECISION\s*\)` -/
def castDoublePat : RE :=
  rcat [rstr "CAST", rws0, .ch '(', rws0, .group 1 (rplus nParen), rws1, rstr "AS", rws1,
    rstr "DOUBLE", rws1, rstr "PRECISION", rws0, .ch ')']

/-- `ARRAY_TO_STRING\s*\(\s*([^,]+)\s*,\s*([^)]+)\s*\)` -/
def arrayToStringPat : RE :=
  rcat [rstr "ARRAY_TO_STRING", rws0, .ch '(', rws0, .group 1 (rplus nComma), rws0, .ch ',',
    rws0, .group 2 (rplus nParen), rws0, .ch ')']

/-- `STRING_TO_ARRAY\s*\(\s*([^,]+)\s*,\s*([^)]+)\s*\)` -/
def stringToArrayPat : RE :=
  rcat [rstr "STRING_TO_ARRAY", rws0, .ch '(', rws0, .group 1 (rplus nComma), rws0, .ch ',',
    rws0, .group 2 (rplus nParen), rws0, .ch ')']

def quoteCls : RE := .cls false [('\'', '\''), ('"', '"')]

/-- `DATE_PART\s*\(\s*['"]epoch['"]\s*,\s*([^)]+)\s*\)` -/
def datePartEpochPat : RE :=
  rcat [rstr "DATE_PART", rws0, .ch '(', rws0, quoteCls, rstr "epoch", quoteCls, rws0, .ch ',',
    rws0, .group 1 (rplus nParen), rws0, .ch ')']

/-- `EXTRACT\s*\(\s*EPOCH\s+FROM\s+([^)]+)\s*\)` -/
def extractEpochPat : RE :=
  rcat [rstr "EXTRACT", rws0, .ch '(', rws0, rstr "EPOCH", rws1, rstr "FROM", rws1,
    .group 1 (rplus nParen), rws0, .ch ')']

/-- `REGEXP_REPLACE\s*\(\s*([^,]+)\s*,\s*([^,]+)\s*,\s*([^,]+)\s*,\s*['"]g['"]\s*\)` -/
def regexpGPat : RE :=
  rcat [rstr "REGEXP_REPLACE", rws0, .ch '(', rws0, .group 1 (rplus nComma), rws0, .ch ',',
    rws0, .group 2 (rplus nComma), rws0, .ch ',', rws0, .group 3 (rplus nComma), rws0, .ch ',',
    rws0, quoteCls, .ch 'g', quoteCls, rws0, .ch ')']

/-- `JSON_EXTRACT_PATH_TEXT\s*\(\s*([^,]+)\s*,\s*([^,]+)\s*,\s*true\s*\)` -/
def jsonTruePat : RE :=
  rcat [rstr "JSON_EXTRACT_PATH_TEXT", rws0, .ch '(', rws0, .group 1 (rplus nComma), rws0,
    .ch ',', rws0, .group 2 (rplus nComma), rws0, .ch ',', rws0, rstr "true", rws0, .ch ')']

/-- `JSON_EXTRACT_PATH_TEXT\s*\(\s*([^,]+)\s*,\s*([^,]+)\s*,\s*false\s*\)` -/
def jsonFalsePat : RE :=
  rcat [rstr "JSON_EXTRACT_PATH_TEXT", rws0, .ch '(', rws0, .group 1 (rplus nComma), rws0,
    .ch ',', rws0, .group 2 (rplus nComma), rws0, .ch ',', rws0, rstr "false", rws0, .ch ')']

/-- `EXISTS\s*\(\s*SELECT\s+\*\s+FROM` -/
def existsPat : RE :=
  rcat [rstr "EXISTS", rws0, .ch '(', rws0, rstr "SELECT", rws1, .ch '*', rws1, rstr "FROM"]

/-- `(\w+)\s*=\s*true\b` -/
def eqTruePat : RE := rcat [.group 1 rw1, rws0, .ch '=', rws0, rstr "true", .wordB]

/-- `(\w+)\s*=\s*false\b` -/
def eqFalsePat : RE := rcat [.group 1 rw1, rws0, .ch '=', rws0, rstr "false", .wordB]

/-- `[^()]` -/
def nParens2 : RE := .cls true [('(', '('), (')', ')')]

/-- `\bNOT\s+([^()]+?)\s+IS\s+NULL\b` -/
def notNullPat : RE :=
  rcat [.wordB, rstr "NOT", rws1, .group 1 (rplusL nParens2), rws1, rstr "IS", rws1,
    rstr "NULL", .wordB]

/-- `\bQUALIFY\s+(ROW_NUMBER\(\)\s+OVER\s*\([^)]+\))\s*=\s*1\b` -/
def qualifyRowPat : RE :=
  rcat [.wordB, rstr "QUALIFY", rws1,
    .group 1 (rcat [rstr "ROW_NUMBER", .ch '(', .ch ')', rws1, rstr "OVER", rws0, .ch '(',
      rplus nParen, .ch ')']),
    rws0, .ch '=', rws0, .ch '1', .wordB]

/-- `\(\s*SELECT\s+[^)]*FROM\s+\w+\s+WHERE\s+[^)]*\w+\.\w+\s*=` -/
def corrSub1Pat : RE :=
  rcat [.ch '(', rws0, rstr "SELECT", rws1, .star false nParen, rstr "FROM", rws1, rw1, rws1,
    rstr "WHERE", rws1, .star false nParen, rw1, .ch '.', rw1, rws0, .ch '=']

/-- `\(\s*SELECT\s+[^)]*\)\s+AS\s+\w+,\s*\(\s*SELECT` -/
def corrSub2Pat : RE :=
  rcat [.ch '(', rws0, rstr "SELECT", rws1, .star false nParen, .ch ')', rws1, rstr "AS", rws1,
    rw1, .ch ',', rws0, .ch '(', rws0, rstr "SELECT"]

/-- `daily_adoptions_\w+` -/
def missingTable1Pat : RE := rcat [rstr "daily_adoptions_", rw1]

/-- `data_engineering_staging\.\w+\.\w+` -/
def missingTable2Pat : RE :=
  rcat [rstr "data_engineering_staging", .ch '.', rw1, .ch '.', rw1]

/-- `\bPIVOT\s*\(` -/
def pivotPat : RE := rcat [.wordB, rstr "PIVOT", rws0, .ch '(']

/-- `\bUNPIVOT\s*\(` -/
def unpivotPat : RE := rcat [.wordB, rstr "UNPIVOT", rws0, .ch '(']

/-- `\bLATERAL\s+VIEW\s+OUTER\b` -/
def lateralPat : RE := rcat [.wordB, rstr "LATERAL", rws1, rstr "VIEW", rws1, rstr "OUTER", .wordB]

/-- `\bCOPY\s+INTO\b` -/
def copyIntoPat : RE := rcat [.wordB, rstr "COPY", rws1, rstr "INTO", .wordB]

/-- `auto_fix_databricks_issues`: unconditional fix-ups, then the collection
of remaining warnings (first matching correlated-subquery pattern appends a
three-line block and breaks; first matching missing-table pattern appends one
line and breaks; each complex-feature pattern appends its own line). -/
def auto_fix_databricks_issues (sql : String) : String × List String :=
  let o := reSubT ciFlags (rcat [.wordB, rstr "SUPER", .wordB]) [.lit "STRING"] sql
  let o := reSubT ciFlags
    (rcat [.wordB, rstr "VARCHAR", rws0, .ch '(', rws0, rstr "MAX", rws0, .ch ')'])
    [.lit "STRING"] o
  let o := reSubT ciFlags
    (rcat [.wordB, rstr "TEXT", .wordB, .nla (rcat [rws0, .ch '('])]) [.lit "STRING"] o
  let o := reSubT ciFlags (rcat [.wordB, rstr "BPCHAR", .wordB]) [.lit "STRING"] o
  let o := reSubT ciFlags modPat [.lit "(", .ref 1, .lit " % ", .ref 2, .lit ")"] o
  let o := reSubT ciFlags castRealPat [.lit "CAST(", .ref 1, .lit " AS FLOAT)"] o
  let o := reSubT ciFlags castDoublePat [.lit "CAST(", .ref 1, .lit " AS DOUBLE)"] o
  let o := reSubT ciFlags arrayToStringPat
    [.lit "array_join(", .ref 1, .lit ", ", .ref 2, .lit ")"] o
  let o := reSubT ciFlags stringToArrayPat
    [.lit "split(", .ref 1, .lit ", ", .ref 2, .lit ")"] o
  let o := reSubT ciFlags datePartEpochPat [.lit "unix_timestamp(", .ref 1, .lit ")"] o
  let o := reSubT ciFlags extractEpochPat [.lit "unix_timestamp(", .ref 1, .lit ")"] o
  let o := reSubT ciFlags regexpGPat
    [.lit "regexp_replace(", .ref 1, .lit ", ", .ref 2, .lit ", ", .ref 3, .lit ")"] o
  let o := reSubT ciFlags jsonTruePat
    [.lit "get_json_object(", .ref 1, .lit ", concat(\"$.\", ", .ref 2, .lit "))"] o
  let o := reSubT ciFlags jsonFalsePat
    [.lit "get_json_object(", .ref 1, .lit ", concat(\"$.\", ", .ref 2, .lit "))"] o
  let o := reSubT ciFlags existsPat [.lit "EXISTS (SELECT 1 FROM"] o
  let o := reSubT ciFlags eqTruePat [.ref 1, .lit " IS TRUE"] o
  let o := reSubT ciFlags eqFalsePat [.ref 1, .lit " IS FALSE"] o
  let o := reSubT ciFlags notNullPat [.ref 1, .lit " IS NOT NULL"] o
  let o :=
    if reSearch ciFlags qualifyRowPat o then
      reSubF ciFlags qualifyRowPat
        (fun _ caps =>
          "-- Converted from QUALIFY: Add this as WHERE " ++ capGet caps 1 ++
            " = 1 in subquery") o
    else o
  let w1 : List String :=
    if reSearch ciDotAll corrSub1Pat o ∨ reSearch ciDotAll corrSub2Pat o then
      ["-- MANUAL: Correlated scalar subqueries detected - rewrite as JOINs or CTEs",
       "-- EXAMPLE: WITH metrics AS (SELECT 'type1' as t, COUNT(*) as c FROM table1 UNION ALL SELECT 'type2', COUNT(*) FROM table2)",
       "-- SELECT SUM(CASE WHEN t='type1' THEN c END) as col1, SUM(CASE WHEN t='type2' THEN c END) as col2 FROM metrics"]
    else []
  let w2 : List String :=
    if reSearch ciFlags missingTable1Pat o ∨ reSearch ciFlags missingTable2Pat o then
      ["-- VERIFY: Check if tables exist in Databricks - run: SHOW TABLES IN schema"]
    else []
  let w3 : List String :=
    (if reSearch ciFlags pivotPat o then
      ["-- MANUAL: PIVOT syntax may differ - verify column names and aggregation"] else []) ++
    (if reSearch ciFlags unpivotPat o then
      ["-- MANUAL: UNPIVOT syntax may differ - verify structure"] else []) ++
    (if reSearch ciFlags lateralPat o then
      ["-- MANUAL: LATERAL VIEW OUTER behavior may differ"] else []) ++
    (if reSearch ciFlags copyIntoPat o then
      ["-- MANUAL: COPY INTO syntax differs from Redshift"] else [])
  (o, w1 ++ w2 ++ w3)

/-! ### `add_inline_warnings_to_sql` -/

/-- `\(\s*SELECT\s+[^)]*FROM\s+\w+\s+WHERE` -/
def inlineCorrPat : RE :=
  rcat [.ch '(', rws0, rstr "SELECT", rws1, .star false nParen, rstr "FROM", rws1, rw1, rws1,
    rstr "WHERE"]

/-- `\bQUALIFY\b` -/
def inlineQualifyPat : RE := rcat [.wordB, rstr "QUALIFY", .wordB]

/-- `VARCHAR\s*\(\s*MAX\s*\)` -/
def inlineVarcharMaxPat : RE :=
  rcat [rstr "VARCHAR", rws0, .ch '(', rws0, rstr "MAX", rws0, .ch ')']

/-- `\bSUPER\b` -/
def inlineSuperPat : RE := rcat [.wordB, rstr "SUPER", .wordB]

def add_inline_warnings_to_sql (sql : String) : String :=
  let out := (pySplit sql "\n").foldl (fun acc line =>
    let acc := acc ++ [line]
    let acc :=
      if reSearch ciFlags inlineCorrPat line then
        acc ++ ["    -- ⚠️  ISSUE: Correlated subquery may fail in Databricks"] else acc
    let acc :=
      if reSearch ciFlags missingTable1Pat line then
        acc ++ ["    -- ⚠️  VERIFY: Check if this adoption table exists in Databricks"] else acc
    let acc :=
      if reSearch ciFlags inlineQualifyPat line then
        acc ++ ["    -- ❌ ERROR: QUALIFY not supported - rewrite using window functions"] else acc
    let acc :=
      if reSearch ciFlags inlineVarcharMaxPat line then
        acc ++ ["    -- 🔄 CONVERT: VARCHAR(MAX) → STRING"] else acc
    let acc :=
      if reSearch ciFlags inlineSuperPat line then
        acc ++ ["    -- 🔄 CONVERT: SUPER → STRING or appropriate STRUCT type"] else acc
    acc) ([] : List String)
  pyJoin "\n" out

/-! ### `add_comprehensive_function_mappings` -/

/-- `\bQUALIFY\s+ROW_NUMBER\(\)\s+OVER\s*\([^)]+\)\s*=\s*1` -/
def compQualifyPat : RE :=
  rcat [.wordB, rstr "QUALIFY", rws1, rstr "ROW_NUMBER", .ch '(', .ch ')', rws1, rstr "OVER",
    rws0, .ch '(', rplus nParen, .ch ')', rws0, .ch '=', rws0, .ch '1']

/-- `JSON_EXTRACT_PATH_TEXT\s*\(\s*([^,]+)\s*,\s*'([^']+)'\s*,\s*true\s*\)` -/
def compJsonPat : RE :=
  rcat [rstr "JSON_EXTRACT_PATH_TEXT", rws0, .ch '(', rws0, .group 1 (rplus nComma), rws0,
    .ch ',', rws0, .ch '\'', .group 2 (rplus nQuote), .ch '\'', rws0, .ch ',', rws0,
    rstr "true", rws0, .ch ')']

/-- `DATE_PART\s*\(\s*'epoch'\s*,\s*([^)]+)\s*\)` -/
def compDatePartPat : RE :=
  rcat [rstr "DATE_PART", rws0, .ch '(', rws0, .ch '\'', rstr "epoch", .ch '\'', rws0, .ch ',',
    rws0, .group 1 (rplus nParen), rws0, .ch ')']

/-- `REGEXP_REPLACE\s*\(\s*([^,]+)\s*,\s*'([^']+)'\s*,\s*'([^']+)'\s*,\s*'g'\s*\)` -/
def compRegexpPat : RE :=
  rcat [rstr "REGEXP_REPLACE", rws0, .ch '(', rws0, .group 1 (rplus nComma), rws0, .ch ',',
    rws0, .ch '\'', .group 2 (rplus nQuote), .ch '\'', rws0, .ch ',', rws0, .ch '\'',
    .group 3 (rplus nQuote), .ch '\'', rws0, .ch ',', rws0, .ch '\'', .ch 'g', .ch '\'',
    rws0, .ch ')']

def add_comprehensive_function_mappings (sql : String) : String :=
  let o := reSubT ciFlags compQualifyPat
    [.lit "-- TODO: Rewrite QUALIFY as WHERE ROW_NUMBER() OVER (...) = 1 in subquery"] sql
  let o := reSubT ciFlags compJsonPat
    [.lit "get_json_object(", .ref 1, .lit ", \"$.", .ref 2,
     .lit "\") -- Note: ignoreCase parameter removed"] o
  let o := reSubT ciFlags arrayToStringPat
    [.lit "array_join(", .ref 1, .lit ", ", .ref 2, .lit ")"] o
  let o := reSubT ciFlags compDatePartPat [.lit "unix_timestamp(", .ref 1, .lit ")"] o
  let o := reSubT ciFlags compRegexpPat
    [.lit "regexp_replace(", .ref 1, .lit ", \"", .ref 2, .lit "\", \"", .ref 3, .lit "\")"] o
  let o := reSubT ciFlags modPat [.lit "(", .ref 1, .lit " % ", .ref 2, .lit ")"] o
  let o := reSubT ciFlags castRealPat [.lit "CAST(", .ref 1, .lit " AS FLOAT)"] o
  o

/-! ### Schema mapping store -/

/-- `SCHEMA_MAP`: either the old `(db, schema) -> (catalog, schema)` pair
format or the new full-table-name format, the two shapes
`load_schema_mappings` can build.  A Python dict is modelled as an
insertion-ordered association list; in pair-map values, `none` models a
Python `None` target schema (the hardcoded map's wildcard-like entries). -/
inductive SchemaMap where
  | pairMap : List ((String × String) × (String × Option String)) → SchemaMap
  | tableMap : List (String × String) → SchemaMap
deriving DecidableEq, Repr

/-- `SCHEMA_MAP and isinstance(next(iter(SCHEMA_MAP.keys())), str)`:
true only for a non-empty table-to-table map (an empty dict is falsy, so an
empty table map falls into the pair-format branch just as in Python). -/
def schemaMapIsTableMode : SchemaMap → Bool
  | .tableMap (_ :: _) => true
  | _ => false

def tableEntriesOf : SchemaMap → List (String × String)
  | .tableMap l => l
  | .pairMap _ => []

def pairEntriesOf : SchemaMap → List ((String × String) × (String × Option String))
  | .pairMap l => l
  | .tableMap _ => []

/-- `get_hardcoded_schema_map()`, entry for entry. -/
def get_hardcoded_schema_map : SchemaMap := .pairMap [
  (("prod", "archive"), ("archive", some "*")),
  (("prod", "prod_reference"), ("reference", some "*")),
  (("prod", "prod_algolia_target"), ("reference", some "algolia_target")),
  (("prod", "census"), ("metadata", some "census")),
  (("prod", "looker_scratch"), ("metadata", some "looker_scratch")),
  (("prod", "looker_tmp"), ("metadata", some "looker_tmp")),
  (("prod", "prod_data_quality"), ("metadata", some "data_quality")),
  (("prod", "prod_dbt_test__audit"), ("metadata", some "dbt_test__audit")),
  (("prod", "prod_elementary"), ("metadata", some "elementary")),
  (("prod", "raw_adroll"), ("source", some "adroll")),
  (("prod", "raw_analytics_api_external"), ("source", some "analytics_api")),
  (("prod", "raw_bamboohr"), ("source", some "bamboohr")),
  (("prod", "raw_bing_ads"), ("source", some "bing_ads")),
  (("prod", "raw_connectivity_api__eu"), ("source", some "connectivity_api__eu")),
  (("prod", "raw_connectivity_api__us"), ("source", some "connectivity_api__us")),
  (("prod", "raw_connectivity_api_observability__eu"), ("source", some "connectivity_api_observability__eu")),
  (("prod", "raw_connectivity_api_observability__us"), ("source", some "connectivity_api_observability__us")),
  (("prod", "raw_crossbeam"), ("source", some "crossbeam")),
  (("prod", "raw_dashboard"), ("source", some "dashboard")),
  (("prod", "raw_demandbase"), ("source", some "demandbase")),
  (("prod", "raw_einstein"), ("source", some "einstein")),
  (("prod", "raw_ethical_ads"), ("source", some "ethical_ads")),
  (("prod", "raw_ethical_ads_v2"), ("source", some "ethical_ads_v2")),
  (("prod", "raw_events_external"), ("source", some "events")),
  (("prod", "raw_facebook"), ("source", some "facebook")),
  (("prod", "raw_facebook_ads"), ("source", some "facebook_ads")),
  (("prod", "raw_feature_personalization_ai"), ("source", some "feature_personalization_ai")),
  (("prod", "raw_feature_personalization_classic"), ("source", some "feature_personalization_classic")),
  (("prod", "raw_feature_query_categorization"), ("source", some "feature_query_categorization")),
  (("prod", "raw_feature_query_categorization_archive_external"), ("source", some "feature_query_categorization_archive")),
  (("prod", "raw_feature_query_categorization_external"), ("source", some "feature_query_categorization")),
  (("prod", "raw_gainsight"), ("source", some "gainsight")),
  (("prod", "raw_galileo"), ("source", some "galileo")),
  (("prod", "raw_github"), ("source", some "github")),
  (("prod", "raw_github_external"), ("source", some "github")),
  (("prod", "raw_google_ads"), ("source", some "google_ads")),
  (("prod", "raw_google_analytics"), ("source", some "google_analytics")),
  (("prod", "raw_google_analytics_4"), ("source", some "google_analytics_4")),
  (("prod", "raw_google_sheets"), ("source", some "google_sheets")),
  (("prod", "raw_helpscout"), ("source", some "helpscout")),
  (("prod", "raw_infrastructure"), ("source", some "infrastructure")),
  (("prod", "raw_infrastructure_costs"), ("source", some "infrastructure_costs")),
  (("prod", "raw_jira"), ("source", some "jira")),
  (("prod", "raw_linkedin_ads"), ("source", some "linkedin_ads")),
  (("prod", "raw_marketo"), ("archive", some "marketo")),
  (("prod", "raw_marketo_v2"), ("source", some "marketo_v2")),
  (("prod", "raw_npm"), ("source", some "npm")),
  (("prod", "raw_pigment"), ("source", some "pigment")),
  (("prod", "raw_product"), ("source", some "product")),
  (("prod", "raw_product_external"), ("source", some "product")),
  (("prod", "product"), ("source", some "product")),
  (("prod", "raw_realm_b2b"), ("source", some "realm_b2b")),
  (("prod", "raw_redshift_monitoring"), ("source", some "redshift_monitoring")),
  (("prod", "raw_redshift_monitoring_external"), ("source", some "redshift_monitoring")),
  (("prod", "raw_revenue"), ("source", some "revenue")),
  (("prod", "revenue"), ("source", some "revenue")),
  (("prod", "raw_salesforce"), ("source", some "salesforce")),
  (("prod", "raw_shopify"), ("source", some "shopify")),
  (("prod", "shopify"), ("source", some "shopify")),
  (("prod", "raw_stripe_eu"), ("source", some "stripe_eu")),
  (("prod", "raw_stripe_eu_backup"), ("source", some "stripe_eu_backup")),
  (("prod", "raw_stripe_us"), ("source", some "stripe_us")),
  (("prod", "raw_stripe_us_backup"), ("source", some "stripe_us_backup")),
  (("prod", "raw_telemetry"), ("source", some "telemetry")),
  (("prod", "raw_toggl"), ("source", some "toggl")),
  (("prod", "raw_twitter_ads"), ("source", some "twitter_ads")),
  (("prod", "raw_usage_api_external"), ("source", some "usage_api")),
  (("prod", "raw_usages_rest_api"), ("source", some "usages_rest_api")),
  (("prod", "usages"), ("source", some "usages")),
  (("prod", "raw_rolling_month_per_application"), ("source", some "usages")),
  (("prod", "raw_zendesk"), ("source", some "zendesk")),
  (("prod", "raw_zendesk_test_stitch"), ("source", some "zendesk_test_stitch")),
  (("prod", "raw_zuora"), ("source", some "zuora")),
  (("prod", "segment_recommend_worker_back_end"), ("source", some "segment_recommend_worker_back_end")),
  (("prod", "segment_algolia"), ("source", some "segment_algolia")),
  (("prod", "segment_algolia_blog"), ("source", some "segment_algolia_blog")),
  (("prod", "segment_algolia_community"), ("source", some "segment_algolia_community")),
  (("prod", "segment_algolia_dashboard_backend"), ("source", some "segment_algolia_dashboard_backend")),
  (("prod", "segment_algolia_dashboard_frontend"), ("source", some "segment_algolia_dashboard_frontend")),
  (("prod", "segment_algolia_documentation"), ("source", some "segment_algolia_documentation")),
  (("prod", "segment_cli_dev"), ("source", some "segment_cli_dev")),
  (("prod", "segment_collections_dev"), ("source", some "segment_collections_dev")),
  (("prod", "segment_collections_prod"), ("source", some "segment_collections_prod")),
  (("prod", "segment_crawler"), ("source", some "segment_crawler")),
  (("prod", "segment_design_system_a11y"), ("source", some "segment_design_system_a11y")),
  (("prod", "segment_design_system_static_usage"), ("source", some "segment_design_system_static_usage")),
  (("prod", "segment_magento"), ("source", some "segment_magento")),
  (("prod", "segment_new_world_docs"), ("source", some "segment_new_world_docs")),
  (("prod", "segment_partners_algolia"), ("source", some "segment_partners_algolia")),
  (("prod", "segment_recommend_doc_prod"), ("source", some "segment_recommend_doc_prod")),
  (("prod", "segment_search_grader"), ("source", some "segment_search_grader")),
  (("prod", "segment_shopify"), ("source", some "segment_shopify")),
  (("prod", "segment_shopify_admin"), ("source", some "segment_shopify_admin")),
  (("prod", "segment_static"), ("source", some "segment_static")),
  (("prod", "segment_support_prod"), ("source", some "segment_support_prod")),
  (("prod", "segment_bigcommerce_integration_prod"), ("source", some "segment_bigcommerce_integration_prod")),
  (("prod", "segment_prod_events_records_connections"), ("source", some "segment_prod_events_records_connections")),
  (("prod", "segment_events_records_connections_staging"), ("source", some "segment_events_records_connections_staging")),
  (("prod", "events"), ("tracked_features_events", none)),
  (("prod", "prod_analytics_api"), ("data_engineering_staging", some "analytics_api")),
  (("prod", "prod_analytics_api_external"), ("data_engineering_staging", some "analytics_api")),
  (("prod", "prod_application"), ("data_engineering_staging", some "application")),
  (("prod", "prod_application_intermediate_feature_logs_stats_external"), ("data_engineering_staging", some "application")),
  (("prod", "prod_application_intermediate_insights_logs_stats_external"), ("data_engineering_staging", some "application")),
  (("prod", "prod_product"), ("data_engineering_staging", some "product")),
  (("prod", "prod_product_daily_recommend_operations_per_user_agent_external"), ("data_engineering_staging", some "product")),
  (("prod", "prod_product_external"), ("data_engineering_staging", some "product")),
  (("prod", "prod_product_indices_replicas_and_primaries_external"), ("data_engineering_staging", some "product")),
  (("prod", "prod_product_insights_daily_user_tokens_per_application_external"), ("data_engineering_staging", some "product")),
  (("prod", "prod_product_intermediate_feature_logs_stats_by_cluster_external"), ("data_engineering_staging", some "product")),
  (("prod", "prod_product_intermediate_feature_logs_stats_by_index_external"), ("data_engineering_staging", some "product")),
  (("prod", "prod_dashboard"), ("source", some "dashboard")),
  (("prod", "prod_salesforce"), ("data_engineering_staging", some "salesforce")),
  (("prod", "prod_usage_quotas"), ("data_engineering_staging", some "usages")),
  (("prod", "prod_usages"), ("data_engineering_staging", some "usages")),
  (("prod", "prod_usages_daily_per_application_per_index_external"), ("data_engineering_staging", some "usages")),
  (("prod", "prod_usages_intermediate_bigtable_daily_per_application_external"), ("data_engineering_staging", some "usages")),
  (("prod", "prod_usages_intermediate_bigtable_daily_per_application_per_index_external"), ("data_engineering_staging", some "usages")),
  (("prod", "prod_usages_intermediate_bigtable_daily_per_application_per_index_rowkeys_external"), ("data_engineering_staging", some "usages")),
  (("prod", "prod_usages_intermediate_bigtable_daily_per_application_rowkeys_external"), ("data_engineering_staging", some "usages")),
  (("prod", "prod_usages_intermediate_daily_per_application_merged_with_legacy_external"), ("data_engineering_staging", some "usages")),
  (("prod", "prod_usages_intermediate_daily_per_application_per_index_external"), ("data_engineering_staging", some "usages")),
  (("prod", "prod_usages_intermediate_daily_per_application_per_index_max_rowkeys_external"), ("data_engineering_staging", some "usages")),
  (("prod", "prod_usages_intermediate_indices_settings_metrics_per_application_external"), ("data_engineering_staging", some "usages")),
  (("prod", "prod_user"), ("data_engineering_staging", some "user")),
  (("prod", "prod_common"), ("standardized", some "common")),
  (("prod", "prod_dimensional"), ("analytics", some "dimensional")),
  (("prod", "prod_helpscout"), ("staging", some "helpscout")),
  (("prod", "prod_infrastructure"), ("staging", some "infrastructure")),
  (("prod", "prod_staging_bamboohr"), ("staging", some "bamboohr")),
  (("prod", "prod_staging_bing_ads"), ("staging", some "bing_ads")),
  (("prod", "prod_staging_dashboard"), ("staging", some "dashboard")),
  (("prod", "prod_staging_demandbase"), ("staging", some "demandbase")),
  (("prod", "prod_staging_ethical_ads"), ("staging", some "ethical_ads")),
  (("prod", "prod_staging_facebook_ads"), ("staging", some "facebook_ads")),
  (("prod", "prod_staging_gainsight"), ("staging", some "gainsight")),
  (("prod", "prod_staging_google_ads"), ("staging", some "google_ads")),
  (("prod", "prod_staging_google_analytics"), ("staging", some "google_analytics")),
  (("prod", "prod_staging_infrastructure"), ("staging", some "infrastructure")),
  (("prod", "prod_staging_jira"), ("staging", some "jira")),
  (("prod", "prod_staging_linkedin_ads"), ("staging", some "linkedin_ads")),
  (("prod", "prod_staging_pigment"), ("staging", some "pigment")),
  (("prod", "prod_staging_product"), ("staging", some "product")),
  (("prod", "prod_staging_realm_b2b"), ("staging", some "realm_b2b")),
  (("prod", "prod_staging_revenue"), ("staging", some "revenue")),
  (("prod", "prod_staging_rollworks"), ("staging", some "rollworks")),
  (("prod", "prod_staging_salesforce"), ("staging", some "salesforce")),
  (("prod", "prod_staging_search"), ("staging", some "search")),
  (("prod", "prod_staging_segment"), ("staging", some "segment")),
  (("prod", "prod_staging_toggl"), ("staging", some "toggl")),
  (("prod", "prod_staging_twitter_ads"), ("staging", some "twitter_ads")),
  (("prod", "prod_staging_usage"), ("staging", some "usage")),
  (("prod", "prod_staging_zendesk"), ("staging", some "zendesk")),
  (("prod", "prod_mart_algolia"), ("mart", some "algolia")),
  (("prod", "prod_analytics"), ("mart", some "algolia")),
  (("prod", "prod_analytics_daily_aggregations_external"), ("mart", some "algolia")),
  (("prod", "prod_analytics_intermediate_query_categorization_metadata_logs_external"), ("mart", some "algolia")),
  (("prod", "prod_analytics_intermediate_search_aggregates_conversions_stats_external"), ("mart", some "algolia")),
  (("prod", "prod_analytics_intermediate_search_aggregates_logs_stats_external"), ("mart", some "algolia")),
  (("prod", "prod_analytics_intermediate_search_aggregates_searches_stats_external"), ("mart", some "algolia")),
  (("prod", "prod_analytics_intermediate_search_slg_search_aggregate_external"), ("mart", some "algolia")),
  (("prod", "prod_mart_customer_success"), ("mart", some "customer_success")),
  (("prod", "prod_mart_customer_support"), ("mart", some "customer_support")),
  (("prod", "prod_mart_finance"), ("mart", some "finance")),
  (("prod", "prod_mart_growth"), ("mart", some "growth")),
  (("prod", "prod_mart_marketing"), ("mart", some "marketing")),
  (("prod", "prod_mart_professional_services"), ("mart", some "professional_services")),
  (("prod", "prod_mart_sales"), ("mart", some "sales")),
  (("prod", "prod_reverse_etl_amplitude"), ("reverse_etl", some "amplitude")),
  (("prod", "prod_reverse_etl_endgame"), ("reverse_etl", some "endgame")),
  (("prod", "prod_reverse_etl_gainsight"), ("reverse_etl", some "gainsight")),
  (("prod", "prod_reverse_etl_headsup"), ("reverse_etl", some "headsup")),
  (("prod", "prod_reverse_etl_marketo"), ("reverse_etl", some "marketo")),
  (("prod", "prod_reverse_etl_salesforce"), ("reverse_etl", some "salesforce")),
  (("prod", "prod_reverse_etl_zendesk"), ("reverse_etl", some "zendesk")) ]

/-- Python dict insertion/update on an association list: overwrite in place,
else append. -/
def dictUpd {α β : Type} [DecidableEq α] : List (α × β) → α → β → List (α × β)
  | [], k, v => [(k, v)]
  | (k0, v0) :: rest, k, v =>
    if k0 = k then (k, v) :: rest else (k0, v0) :: dictUpd rest k v

/-- A tabular mapping source: the parsed header list and the rows as
header-to-value association lists (what `csv.DictReader` yields). -/
structure CsvFile where
  headers : List String
  rows : List (List (String × String))
deriving Repr

def rowGet (r : List (String × String)) (k : String) : Option String :=
  (r.find? (fun p => p.1 = k)).map (fun p => p.2)

/-- Row loop of the table-to-table branch of `load_schema_mappings`.  A row
missing one of the two columns makes `DictReader` yield `None`, and
`None.strip()` raises (modelled as `.error`), to be caught by the caller. -/
def buildTableEntries : List (List (String × String)) → List (String × String) →
    Except Unit (List (String × String))
  | [], acc => .ok acc
  | row :: rest, acc =>
    match rowGet row "Redshift Table", rowGet row "Databricks Table" with
    | some rt0, some dt0 =>
      let rt := pstrip rt0
      let dt := pstrip dt0
      if rt ≠ "" ∧ dt ≠ "" then buildTableEntries rest (dictUpd acc (pyLower rt) dt)
      else buildTableEntries rest acc
    | _, _ => .error ()

/-- Row loop of the pair-format branch of `load_schema_mappings`.  Note the
source stores `databricks_schema if databricks_schema != '*' else '*'`, which
is just `databricks_schema`; loaded pair values never carry a Python `None`. -/
def buildPairEntries : List (List (String × String)) →
    List ((String × String) × (String × Option String)) →
    Except Unit (List ((String × String) × (String × Option String)))
  | [], acc => .ok acc
  | row :: rest, acc =>
    match rowGet row "Redshift Database", rowGet row "Redshift Schema",
        rowGet row "Databricks Catalog", rowGet row "Databricks Schema" with
    | some db0, some sch0, some cat0, some dsch0 =>
      let key := (pyLower (pstrip db0), pyLower (pstrip sch0))
      buildPairEntries rest (dictUpd acc key (pstrip cat0, some (pstrip dsch0)))
    | _, _, _, _ => .error ()

/-- The `try` body of `load_schema_mappings`: header sniffing; a header with
neither recognized column set raises
`ValueError("Unsupported CSV format ...")`, modelled by `.error`. -/
def load_schema_mappings_body (f : CsvFile) : Except Unit SchemaMap :=
  if "Redshift Table" ∈ f.headers ∧ "Databricks Table" ∈ f.headers then
    (buildTableEntries f.rows []).map .tableMap
  else if "Redshift Database" ∈ f.headers ∧ "Redshift Schema" ∈ f.headers then
    (buildPairEntries f.rows []).map .pairMap
  else
    .error ()

/-- `load_schema_mappings`: `none` models a missing/unreadable path
(`FileNotFoundError`); every exception raised inside the `try` body —
including the unsupported-format `ValueError` — is caught by
`except Exception` and answered with the hardcoded fallback map. -/
def load_schema_mappings (src : Option CsvFile) : SchemaMap :=
  match src with
  | none => get_hardcoded_schema_map
  | some f =>
    match load_schema_mappings_body f with
    | .ok m => m
    | .error _ => get_hardcoded_schema_map

/-! ### `rewrite_table_references` (full-table-name mode) -/

/-- Stable insertion step for `sorted(SCHEMA_MAP.items(), key=lambda x: -len(x[0]))`. -/
def lenSortInsert (e : String × String) : List (String × String) → List (String × String)
  | [] => [e]
  | f :: rest =>
    if f.1.length < e.1.length then e :: f :: rest else f :: lenSortInsert e rest

def sortLenDesc (l : List (String × String)) : List (String × String) :=
  l.foldl (fun acc e => lenSortInsert e acc) []

/-- Per-entry pattern cascade of `rewrite_table_references`: an unquoted
word-boundary match, then a fully quoted match, then (for dotted keys) the
2- or 3-part quoted form; the first pattern that changes the text wins. -/
def tryEntryPatterns (key val out : String) : String :=
  let s1 := reSubT ciFlags (rcat [.wordB, rstr key, .wordB]) [.lit val] out
  if s1 ≠ out then s1 else
  let s2 := reSubT ciFlags (rcat [.ch '"', rstr key, .ch '"']) [.lit val] out
  if s2 ≠ out then s2 else
  match pySplit key "." with
  | [a, b] =>
    let p3 := rcat [.ch '"', rstr a, .ch '"', rws0, .ch '.', rws0, .ch '"', rstr b, .ch '"']
    let s3 := reSubT ciFlags p3 [.lit val] out
    if s3 ≠ out then s3 else out
  | [a, b, c] =>
    let p3 := rcat [.ch '"', rstr a, .ch '"', rws0, .ch '.', rws0, .ch '"', rstr b, .ch '"',
      rws0, .ch '.', rws0, .ch '"', rstr c, .ch '"']
    let s3 := reSubT ciFlags p3 [.lit val] out
    if s3 ≠ out then s3 else out
  | _ => out

def rewrite_table_references (entries : List (String × String)) (sql : String) : String :=
  (sortLenDesc entries).foldl (fun out e => tryEntryPatterns e.1 e.2 out) sql

/-! ### `rewrite_schema_qualification` (pair mode + dispatch) -/

/-- ``[A-Za-z0-9_`"]`` -/
def wqCls : RE :=
  .cls false [('A', 'Z'), ('a', 'z'), ('0', '9'), ('_', '_'),
    (Char.ofNat 96, Char.ofNat 96), ('"', '"')]

/-- ``([A-Za-z0-9_]+)\.([A-Za-z0-9_]+)(\.[A-Za-z0-9_`"]+)`` -/
def dottedPat : RE :=
  rcat [.wordB, .group 1 rw1, .ch '.', .group 2 rw1, .group 3 (.seq (.ch '.') (rplus wqCls))]

/-- ``(prod)_([A-Za-z0-9_]+)(\.[A-Za-z0-9_`"]+)`` -/
def underscorePat : RE :=
  rcat [.wordB, .group 1 (rstr "prod"), .ch '_', .group 2 rw1,
    .group 3 (.seq (.ch '.') (rplus wqCls))]

def pairLookup (m : List ((String × String) × (String × Option String)))
    (k : String × String) : Option (String × Option String) :=
  (m.find? (fun e => e.1 = k)).map (fun e => e.2)

/-- `repl` of the pair-format branch. -/
def pairReplDotted (m : List ((String × String) × (String × Option String)))
    (whole : String) (caps : Caps) : String :=
  let db := capGet caps 1
  let sch := capGet caps 2
  let rest := capGet caps 3
  match pairLookup m (pyLower db, pyLower sch) with
  | some (cat, newSch) =>
    match newSch with
    | none => cat ++ rest
    | some "*" => cat ++ rest
    | some ns => cat ++ "." ++ ns ++ rest
  | none => whole

/-- `repl_underscore` of the pair-format branch. -/
def pairReplUnderscore (m : List ((String × String) × (String × Option String)))
    (whole : String) (caps : Caps) : String :=
  let db := capGet caps 1
  let sch := capGet caps 2
  let rest := capGet caps 3
  match pairLookup m (pyLower db, pyLower db ++ "_" ++ pyLower sch) with
  | some (cat, newSch) =>
    match newSch with
    | none => cat ++ rest
    | some "*" => cat ++ rest
    | some ns => cat ++ "." ++ ns ++ rest
  | none => whole

/-- The `out` value the pair-format branch of `rewrite_schema_qualification`
computes (and then discards, see below): the dotted-form substitution followed
by the `prod_`-underscore substitution. -/
def pair_mode_rewrite (m : List ((String × String) × (String × Option String)))
    (sql : String) : String :=
  reSubF ciFlags underscorePat (pairReplUnderscore m)
    (reSubF ciFlags dottedPat (pairReplDotted m) sql)

/-- `rewrite_schema_qualification`.  In table mode it returns the rewritten
string; in the pair-format branch the Python function computes `out` but has
no `return` statement, so it falls off the end and returns `None` (`Option`
models this: the computed value is bound and discarded, and `none` is
returned). -/
def rewrite_schema_qualification (m : SchemaMap) (sql : String) : Option String :=
  if schemaMapIsTableMode m then
    some (rewrite_table_references (tableEntriesOf m) sql)
  else
    let _out := pair_mode_rewrite (pairEntriesOf m) sql
    none

/-! ### `apply_sql_rewrites` -/

/-- `\(\s*SELECT\s+[^)]+\s+FROM\s+\w+\s+WHERE\s+[^)]*ld\.` -/
def corrLdPat : RE :=
  rcat [.ch '(', rws0, rstr "SELECT", rws1, rplus nParen, rws1, rstr "FROM", rws1, rw1, rws1,
    rstr "WHERE", rws1, .star false nParen, .wordB, rstr "ld", .ch '.']

/-- `\(\s*SELECT\s+.*?\s+FROM\s+.*?\)\s+AS\s+.*?\(\s*SELECT\s+.*?\s+FROM\s+.*?\)` -/
def scalarSubPat : RE :=
  rcat [.ch '(', rws0, rstr "SELECT", rws1, .star true .dot, rws1, rstr "FROM", rws1,
    .star true .dot, .ch ')', rws1, rstr "AS", rws1, .star true .dot, .ch '(', rws0,
    rstr "SELECT", rws1, .star true .dot, rws1, rstr "FROM", rws1, .star true .dot, .ch ')']

/-- `prod\.[A-Za-z0-9_]+\.[A-Za-z0-9_]+` -/
def tref1Pat : RE := rcat [.wordB, rstr "prod", .ch '.', rw1, .ch '.', rw1]

/-- `raw_[A-Za-z0-9_]+\.[A-Za-z0-9_]+` -/
def tref2Pat : RE := rcat [.wordB, rstr "raw_", rw1, .ch '.', rw1]

/-- `staging\.[A-Za-z0-9_]+\.[A-Za-z0-9_]+` -/
def tref3Pat : RE := rcat [.wordB, rstr "staging", .ch '.', rw1, .ch '.', rw1]

def ldWarning : String :=
  "-- TODO(manual): Databricks requires correlated scalar subqueries to be aggregated or rewritten as JOINs\n-- Error: UNSUPPORTED_SUBQUERY_EXPRESSION_CATEGORY.MUST_AGGREGATE_CORRELATED_SCALAR_SUBQUERY\n-- See: https://docs.databricks.com/sql/language-manual/sql-ref-subqueries.html\n"

def scalarWarning : String :=
  "-- TODO(manual): Multiple scalar subqueries detected - rewrite as JOINs or CTEs\n-- EXAMPLE: Replace (SELECT COUNT(*) FROM table1) AS col1, (SELECT COUNT(*) FROM table2) AS col2\n-- WITH: WITH metrics AS (SELECT 'table1' as type, COUNT(*) as cnt FROM table1 UNION ALL SELECT 'table2', COUNT(*) FROM table2)\n-- SELECT SUM(CASE WHEN type='table1' THEN cnt END) as col1, SUM(CASE WHEN type='table2' THEN cnt END) as col2 FROM metrics\n"

def adoptionWarning : String :=
  "-- TODO(manual): Verify table existence in Databricks - run: SHOW TABLES IN schema LIKE '*adoption*'\n-- Some tables may have different names, schemas, or may not have been migrated yet\n"

def trefWarning : String :=
  "-- TODO(manual): Legacy table references detected - verify schema/catalog mapping in Databricks\n-- TIP: Use SHOW TABLES to verify table existence and correct names\n"

/-- `apply_sql_rewrites`.  The pair-format (old) mapping makes
`rewrite_schema_qualification` return Python `None`; that `None` then flows
into `re.sub` inside `apply_csv_function_mappings` (when a mapping entry
acts) or `add_comprehensive_function_mappings`, either of which raises
`TypeError: expected string or bytes-like object`, so the call never returns
a string. -/
def apply_sql_rewrites (m : SchemaMap) (fm : List (String × String)) (sql : String) :
    Except PyErr String :=
  let af := auto_fix_databricks_issues sql
  match rewrite_schema_qualification m af.1 with
  | none => .error .typeError
  | some o1 =>
    let o := apply_csv_function_mappings fm o1
    let o := add_comprehensive_function_mappings o
    let o := SQL_SIMPLE_REWRITES.foldl (fun acc pr => reSubT ciFlags pr.1 pr.2 acc) o
    let o := rewrite_complex_functions o
    let o := add_inline_warnings_to_sql o
    let o :=
      if reSearch ciFlags QUALIFY_PATTERN o ∧ ¬ strContainsSub o "Converted from QUALIFY" then
        "-- TODO(manual): Translate QUALIFY to WHERE with window subquery\n" ++ o
      else o
    let o := if reSearch ciDotAll corrLdPat o then ldWarning ++ o else o
    let o := if reSearch ciDotAll scalarSubPat o then scalarWarning ++ o else o
    let o := if reSearch ciFlags missingTable1Pat o then adoptionWarning ++ o else o
    let o :=
      if reSearch ciFlags tref1Pat o ∨ reSearch ciFlags tref2Pat o ∨ reSearch ciFlags tref3Pat o
      then trefWarning ++ o else o
    let o := if af.2 ≠ [] then pyJoin "\n" af.2 ++ "\n\n" ++ o else o
    .ok o

/-! ### Hex document model

A document is a YAML tree; the transformer reads and writes a fixed set of
keys.  Scalars are modelled by `Val`; each dict of known shape is a structure
whose `Option`-valued fields model key presence (`none` = key absent, and a
stored YAML `null` is `some .null`), with an `extra` key list preserving
Python dict truthiness for unmodelled keys. -/

inductive Val where
  | s : String → Val
  | b : Bool → Val
  | i : Int → Val
  | null : Val
deriving DecidableEq, Repr

/-- Python truthiness of a stored value. -/
def valTruthy : Val → Bool
  | .s t => t ≠ ""
  | .b x => x
  | .i n => n ≠ 0
  | .null => false

def optTruthy : Option Val → Bool
  | none => false
  | some v => valTruthy v

/-- Python `dict.get(k) or dict.get(k')` over two lookup results. -/
def truthyOr (a b : Option Val) : Option Val := if optTruthy a then a else b

/-- A cell's `data` / `config` payload dict. -/
structure DataDict where
  inputType : Option Val := none
  defaultValue : Option Val := none
  query : Option Val := none
  source : Option Val := none
  dataConnectionId : Option Val := none
  extra : List String := []
deriving DecidableEq, Repr

/-- Python truthiness of the payload dict (non-emptiness). -/
def dictTruthy (d : DataDict) : Bool :=
  d.inputType.isSome || d.defaultValue.isSome || d.query.isSome || d.source.isSome ||
    d.dataConnectionId.isSome || !d.extra.isEmpty

structure Cell where
  type : Option Val := none
  cellType : Option Val := none
  dataConnectionId : Option Val := none
  data : Option DataDict := none
  config : Option DataDict := none
deriving DecidableEq, Repr

/-- Which dict object `data = cell.get("data", {}) or cell.get("config", {})`
aliases: the cell's `data` dict, its `config` dict, or a fresh `{}` whose
mutations are lost. -/
inductive DataSlot where
  | dataSlot
  | configSlot
  | freshSlot
deriving DecidableEq, Repr

def resolveConfig (c : Cell) : DataDict × DataSlot :=
  match c.config with
  | some d => (d, .configSlot)
  | none => ({}, .freshSlot)

def resolveData (c : Cell) : DataDict × DataSlot :=
  match c.data with
  | some d => if dictTruthy d then (d, .dataSlot) else resolveConfig c
  | none => resolveConfig c

/-- Write the (mutated-in-place) dict back to the object it aliased. -/
def putData (c : Cell) (slot : DataSlot) (d : DataDict) : Cell :=
  match slot with
  | .dataSlot => { c with data := some d }
  | .configSlot => { c with config := some d }
  | .freshSlot => c

/-- `cell.get("type") or cell.get("cellType")` -/
def resolveCellType (c : Cell) : Option Val := truthyOr c.type c.cellType

/-- Python `conn_id in redshift_conn_ids` (a set of strings). -/
def connInSet (v : Option Val) (ids : List String) : Bool :=
  match v with
  | some (.s t) => ids.contains t
  | _ => false

/-- `\bprod\.[A-Za-z0-9_]+\.[A-Za-z0-9_]+` (the transformer's heuristic). -/
def heurDottedPat : RE := rcat [.wordB, rstr "prod", .ch '.', rw1, .ch '.', rw1]

/-- `\bprod_[A-Za-z0-9_]+\.[A-Za-z0-9_]+` (the transformer's heuristic). -/
def heurUnderscorePat : RE := rcat [.wordB, rstr "prod", .ch '_', rw1, .ch '.', rw1]

/-- `isinstance(query, str) and (re.search(...) or re.search(...))` -/
def legacyHeuristic (q : Option Val) : Bool :=
  match q with
  | some (.s t) => reSearch ciFlags heurDottedPat t || reSearch ciFlags heurUnderscorePat t
  | _ => false

/-- The `should_process` decision for a DATA/SQL cell. -/
def shouldProcess (ids : List String) (c : Cell) : Bool :=
  let d := (resolveData c).1
  if ids ≠ [] then connInSet (truthyOr d.dataConnectionId c.dataConnectionId) ids
  else legacyHeuristic (truthyOr d.query d.source)

/-- The INPUT-cell branch: convert a boolean-like input kind to TEXT and
stringify a boolean default value.  Python's `elif default_value in (True,
False)` also fires for the integers `1` and `0` (`1 == True`, `0 == False`). -/
def inputStep (c : Cell) : Cell :=
  let rd := resolveData c
  let d := rd.1
  match d.inputType with
  | some (.s it) =>
    if it = "BOOLEAN" ∨ it = "TOGGLE" ∨ it = "CHECKBOX" then
      let d1 := { d with inputType := some (.s "TEXT") }
      let d2 :=
        match d1.defaultValue with
        | some (.b bv) => { d1 with defaultValue := some (.s (if bv then "true" else "false")) }
        | some (.i n) =>
          if n = 1 then { d1 with defaultValue := some (.s "true") }
          else if n = 0 then { d1 with defaultValue := some (.s "false") }
          else d1
        | _ => d1
      putData c rd.2 d2
    else c
  | _ => c

/-- The connection-id update of an eligible cell: the top-level slot if the
key is present there, else the payload slot if present there, else nothing. -/
def connUpdate (target : String) (c : Cell) (d : DataDict) : Cell × DataDict :=
  if c.dataConnectionId.isSome then
    ({ c with dataConnectionId := some (.s target) }, d)
  else if d.dataConnectionId.isSome then
    (c, { d with dataConnectionId := some (.s target) })
  else (c, d)

/-- The DATA/SQL-cell branch of the transformer's cell loop. -/
def sqlStep (m : SchemaMap) (fm : List (String × String)) (ids : List String)
    (target : String) (c : Cell) : Except PyErr (Cell × Nat) :=
  let rd := resolveData c
  let d := rd.1
  let q := truthyOr d.query d.source
  if shouldProcess ids c then
    let cd := connUpdate target c d
    match q with
    | some (.s qs) =>
      match apply_sql_rewrites m fm qs with
      | .error e => .error e
      | .ok rw =>
        let d1 := if cd.2.query.isSome then { cd.2 with query := some (.s rw) } else cd.2
        let d2 := if d1.source.isSome then { d1 with source := some (.s rw) } else d1
        .ok (putData cd.1 rd.2 d2, 1)
    | _ => .ok (putData cd.1 rd.2 cd.2, 0)
  else .ok (c, 0)

/-- One iteration of the cell loop of `transform_hex_yaml`.  A cell whose
resolved type is not a string — in particular a non-INPUT cell carrying
neither `type` nor `cellType`, whose resolved type is Python `None` — hits
`cell_type.upper()` and raises `AttributeError`. -/
def processCell (m : SchemaMap) (fm : List (String × String)) (ids : List String)
    (target : String) (c : Cell) : Except PyErr (Cell × Nat) :=
  match resolveCellType c with
  | some (.s t) =>
    if t = "INPUT" then .ok (inputStep c, 0)
    else if pyUpper t = "DATA" ∨ pyUpper t = "SQL" then sqlStep m fm ids target c
    else .ok (c, 0)
  | _ => .error .attributeError

def processCells (m : SchemaMap) (fm : List (String × String)) (ids : List String)
    (target : String) : List Cell → Except PyErr (List Cell × Nat)
  | [] => .ok ([], 0)
  | c :: cs => do
    let r ← processCell m fm ids target c
    let rs ← processCells m fm ids target cs
    .ok (r.1 :: rs.1, r.2 + rs.2)

structure Conn where
  dataConnectionId : Option Val := none
  extra : List String := []
deriving DecidableEq, Repr

structure SharedAssets where
  dataConnections : Option (List Conn) := none
deriving DecidableEq, Repr

structure Document where
  cells : List Cell := []
  defaultDataConnectionId : Option Val := none
  sharedAssets : Option SharedAssets := none
deriving DecidableEq, Repr

/-- The default Redshift connection ids used when the caller passes `None`. -/
def DEFAULT_REDSHIFT_IDS : List String :=
  ["e2694948-2c20-47d3-b127-71448e2bf238",
   "0d0da619-5aa7-4f55-b020-ba94bfa77917",
   "63ebcea0-017f-4bcf-b58a-a2340a75845f"]

/-- `set(redshift_conn_ids or [])` after the `None` default. -/
def normalizeIds : Option (List String) → List String
  | none => DEFAULT_REDSHIFT_IDS
  | some l => l

def updateDefaultConn (ids : List String) (target : String) (d : Document) : Document :=
  match d.defaultDataConnectionId with
  | some v =>
    if ids = [] ∨ connInSet (some v) ids then
      { d with defaultDataConnectionId := some (.s target) }
    else d
  | none => d

/-- Replace (in place) the first connection whose id is in the source set. -/
def replaceFirstIn (ids : List String) (target : String) : List Conn → Option (List Conn)
  | [] => none
  | cn :: rest =>
    if connInSet cn.dataConnectionId ids then
      some ({ dataConnectionId := some (.s target) } :: rest)
    else (replaceFirstIn ids target rest).map (cn :: ·)

def updateSharedAssets (ids : List String) (target : String) (d : Document) : Document :=
  match d.sharedAssets with
  | none => d
  | some sa =>
    match sa.dataConnections with
    | none => d
    | some dcs =>
      if dcs.any (fun cn => cn.dataConnectionId = some (.s target)) then d
      else
        let dcs2 :=
          if ids ≠ [] then
            match replaceFirstIn ids target dcs with
            | some l => l
            | none => dcs ++ [{ dataConnectionId := some (.s target) }]
          else
            match dcs with
            | [] => [{ dataConnectionId := some (.s target) }]
            | _ :: rest => { dataConnectionId := some (.s target) } :: rest
        { d with sharedAssets := some { sa with dataConnections := some dcs2 } }

/-- `transform_hex_yaml(doc, databricks_conn_id, redshift_conn_ids)`.
Operates on a deep copy (the functional model returns a new value); the
schema map and function-mapping table are the module-level `SCHEMA_MAP` and
`FUNCTION_MAPPINGS`, passed here explicitly. -/
def transform_hex_yaml (m : SchemaMap) (fm : List (String × String)) (doc : Document)
    (target : String) (rsIds : Option (List String)) : Except PyErr (Document × Nat) := do
  let ids := normalizeIds rsIds
  let r ← processCells m fm ids target doc.cells
  let d1 : Document := { doc with cells := r.1 }
  let d2 := updateDefaultConn ids target d1
  let d3 := updateSharedAssets ids target d2
  .ok (d3, r.2)

/-! ## Supporting lemmas -/

/-- The hardcoded fallback map is in pair mode. -/
theorem hardcoded_not_table_mode : schemaMapIsTableMode get_hardcoded_schema_map = false := rfl

/-- In pair mode `rewrite_schema_qualification` returns Python `None`,
whatever the input string. -/
theorem rewrite_schema_qualification_pair (m : SchemaMap)
    (hm : schemaMapIsTableMode m = false) (sql : String) :
    rewrite_schema_qualification m sql = none := by
  simp [rewrite_schema_qualification, hm]

/-- With the pair-mode mapping active, `apply_sql_rewrites` raises `TypeError`
on every input. -/
theorem apply_sql_rewrites_pair_error (m : SchemaMap)
    (hm : schemaMapIsTableMode m = false) (fm : List (String × String)) (sql : String) :
    apply_sql_rewrites m fm sql = .error .typeError := by
  simp only [apply_sql_rewrites, rewrite_schema_qualification_pair m hm]

/-! ## The claims -/

/-- C1: the spec says `rewriteSql` is the identity on inputs containing no
recognized rewrite pattern, in particular under the built-in schema-pair
fallback mapping.  The code contradicts this: with the pair-mode mapping
active, `rewrite_schema_qualification` falls off the end without a `return`,
hands `None` to the following `re.sub`-based passes, and `apply_sql_rewrites`
raises `TypeError` instead of returning the (pattern-free) input unchanged. -/
theorem c1_pattern_free_not_identity :
    apply_sql_rewrites get_hardcoded_schema_map [] "SELECT col FROM tbl" =
      .error .typeError :=
  apply_sql_rewrites_pair_error _ hardcoded_not_table_mode _ _

/-- C2: the spec says `rewriteSql` is total over any string input under either
mapping variant.  With the built-in schema-pair fallback active it instead
raises `TypeError` for every input string (missing `return` in
`rewrite_schema_qualification`). -/
theorem c2_not_total (sql : String) :
    apply_sql_rewrites get_hardcoded_schema_map [] sql = .error .typeError :=
  apply_sql_rewrites_pair_error _ hardcoded_not_table_mode _ _

/-- C3: in schema-pair mode the substitution logic does map
`prod.raw_github.repos` to `source.github.repos` (and leaves an unmapped
pair untouched), but `rewrite_schema_qualification` then returns Python
`None` instead of the computed string, because the pair-mode branch has no
`return` statement. -/
theorem c3_pair_rewrite_returns_none :
    rewrite_schema_qualification get_hardcoded_schema_map "prod.raw_github.repos" = none ∧
    pair_mode_rewrite (pairEntriesOf get_hardcoded_schema_map) "prod.raw_github.repos" =
      "source.github.repos" ∧
    pair_mode_rewrite (pairEntriesOf get_hardcoded_schema_map) "foo.unmapped_schema.tbl" =
      "foo.unmapped_schema.tbl" := by
  refine ⟨rewrite_schema_qualification_pair _ hardcoded_not_table_mode _, ?_, ?_⟩ <;> decide

/-- C4 counterexample: a readable source whose header has neither recognized
column set is *not* a hard load error — the `ValueError` raised inside the
`try` body is caught by the function's own `except Exception` handler, and the
load returns the built-in hardcoded mapping. -/
theorem c4_neither_header_counterexample :
    load_schema_mappings_body ⟨["Column A", "Column B"], []⟩ = .error () ∧
    load_schema_mappings (some ⟨["Column A", "Column B"], []⟩) = get_hardcoded_schema_map := by
  constructor <;> decide

/-- C4 amended: for every readable source whose header contains neither the
full-name column set nor the pair column set, the loader raises `ValueError`
internally but catches it itself and returns the built-in hardcoded mapping
instead of failing. -/
theorem c4_neither_header_falls_back (f : CsvFile)
    (h1 : ¬ ("Redshift Table" ∈ f.headers ∧ "Databricks Table" ∈ f.headers))
    (h2 : ¬ ("Redshift Database" ∈ f.headers ∧ "Redshift Schema" ∈ f.headers)) :
    load_schema_mappings_body f = .error () ∧
    load_schema_mappings (some f) = get_hardcoded_schema_map := by
  have hb : load_schema_mappings_body f = .error () := by
    simp [load_schema_mappings_body, h1, h2]
  exact ⟨hb, by simp [load_schema_mappings, hb]⟩

theorem c4_neither_header_falls_back_witness :
    load_schema_mappings_body ⟨["SNO", "Purpose"], []⟩ = .error () ∧
    load_schema_mappings (some ⟨["SNO", "Purpose"], []⟩) = get_hardcoded_schema_map :=
  c4_neither_header_falls_back ⟨["SNO", "Purpose"], []⟩ (by decide) (by decide)

/-- C7: in full-table-name mode, with a mapping containing both `orders` and
`staging.orders`, the entries are applied longest key first, so an input
containing `staging.orders` is rewritten with the value mapped to
`staging.orders` — whichever insertion order the two keys had — and the result
never carries a dangling `staging.` prefix in front of the value mapped to
`orders`. -/
theorem c7_longest_key_first :
    rewrite_table_references [("orders", "tgt1"), ("staging.orders", "tgt2")]
        "SELECT * FROM staging.orders WHERE x" = "SELECT * FROM tgt2 WHERE x" ∧
    rewrite_table_references [("staging.orders", "tgt2"), ("orders", "tgt1")]
        "SELECT * FROM staging.orders WHERE x" = "SELECT * FROM tgt2 WHERE x" ∧
    strContainsSub "SELECT * FROM tgt2 WHERE x" "staging.tgt1" = false := by
  refine ⟨?_, ?_, ?_⟩ <;> decide

/-- C8: `replace_dateadd` (the argument-aware scanner inside
`rewrite_complex_functions`) maps day/week/month DATEADD calls as the spec
states, and its depth-counting, top-level-comma argument split lets the expr
argument carry a nested call with commas. -/
theorem c8_dateadd_rewrites :
    rewrite_complex_functions "DATEADD(day, -5, col)" = "date_sub(col, 5)" ∧
    rewrite_complex_functions "DATEADD(day, 5, col)" = "date_add(col, 5)" ∧
    rewrite_complex_functions "DATEADD(month, n, col)" = "add_months(col, n)" ∧
    rewrite_complex_functions "DATEADD(week, 2, col)" = "date_add(col, 2 * 7)" ∧
    replace_dateadd "DATEADD(day, 5, f(a, b))" = "date_add(f(a, b), 5)" := by
  refine ⟨?_, ?_, ?_, ?_, ?_⟩ <;> decide

/-! ## Inversion lemmas for the cell loop -/

/-- A non-INPUT cell carrying neither `type` nor `cellType` raises
`AttributeError` (`None.upper()`). -/
theorem processCell_no_type (m : SchemaMap) (fm : List (String × String))
    (ids : List String) (target : String) (c : Cell)
    (h1 : c.type = none) (h2 : c.cellType = none) :
    processCell m fm ids target c = .error .attributeError := by
  simp [processCell, resolveCellType, truthyOr, h1, h2, optTruthy]

theorem processCells_cons_inv {m : SchemaMap} {fm : List (String × String)}
    {ids : List String} {target : String} {c : Cell} {cs : List Cell}
    {out : List Cell × Nat}
    (h : processCells m fm ids target (c :: cs) = .ok out) :
    ∃ r rs, processCell m fm ids target c = .ok r ∧
      processCells m fm ids target cs = .ok rs ∧
      out = (r.1 :: rs.1, r.2 + rs.2) := by
  rcases hc : processCell m fm ids target c with e | r
  · rw [processCells, hc] at h; exact absurd h (by simp [Bind.bind, Except.bind])
  · rcases hcs : processCells m fm ids target cs with e | rs
    · rw [processCells, hc, hcs] at h; exact absurd h (by simp [Bind.bind, Except.bind])
    · refine ⟨r, rs, rfl, rfl, ?_⟩
      rw [processCells, hc, hcs] at h
      simpa [Bind.bind, Except.bind] using h.symm

/-- If every cell of a prefix processes cleanly and some later cell raises,
the whole loop raises that error. -/
theorem processCells_reaches_error {m : SchemaMap} {fm : List (String × String)}
    {ids : List String} {target : String} (bad : Cell) (rest : List Cell) (e : PyErr)
    (hbad : processCell m fm ids target bad = .error e) :
    ∀ (pre : List Cell) (out : List Cell × Nat),
      processCells m fm ids target pre = .ok out →
      processCells m fm ids target (pre ++ bad :: rest) = .error e := by
  intro pre
  induction pre with
  | nil => intro out _; simp [processCells, hbad, Bind.bind, Except.bind]
  | cons c cs ih =>
    intro out h
    rcases processCells_cons_inv h with ⟨r, rs, hc, hcs, _⟩
    have hrec := ih rs hcs
    simp [processCells, hc, hrec, Bind.bind, Except.bind]

/-- C9: a document containing a non-INPUT cell with neither `type` nor
`cellType` makes `transform_hex_yaml` raise `AttributeError` once the loop
reaches that cell (every cell before it processing cleanly), instead of
skipping it. -/
theorem c9_missing_cell_type_raises (m : SchemaMap) (fm : List (String × String))
    (target : String) (rsIds : Option (List String)) (dflt : Option Val)
    (sa : Option SharedAssets) (pre rest : List Cell) (bad : Cell)
    (out : List Cell × Nat)
    (hb1 : bad.type = none) (hb2 : bad.cellType = none)
    (hpre : processCells m fm (normalizeIds rsIds) target pre = .ok out) :
    transform_hex_yaml m fm ⟨pre ++ bad :: rest, dflt, sa⟩ target rsIds =
      .error .attributeError := by
  have herr := processCells_reaches_error bad rest .attributeError
    (processCell_no_type m fm (normalizeIds rsIds) target bad hb1 hb2) pre out hpre
  simp [transform_hex_yaml, herr, Bind.bind, Except.bind]

theorem c9_missing_cell_type_raises_witness :
    transform_hex_yaml (.pairMap []) [] ⟨[{ }], none, none⟩ "T" none =
      .error .attributeError :=
  c9_missing_cell_type_raises (.pairMap []) [] "T" none none none [] [] { } ([], 0)
    rfl rfl rfl

/-! ## Cell counting (claim C5) -/

/-- From the claim's words: a cell of type DATA or SQL, case-insensitively. -/
def isDataSqlType (c : Cell) : Bool :=
  match resolveCellType c with
  | some (.s t) => if pyUpper t = "DATA" ∨ pyUpper t = "SQL" then true else false
  | _ => false

/-- From the claim's words: the eligibility rule — connection id in the
source-connection set, or, with an empty source set, query text matching the
legacy-catalog heuristic. -/
def claimEligible (ids : List String) (c : Cell) : Bool :=
  let d := (resolveData c).1
  connInSet (truthyOr d.dataConnectionId c.dataConnectionId) ids ||
    (ids.isEmpty && legacyHeuristic (truthyOr d.query d.source))

/-- The cell's payload carries a string `query`/`source` text. -/
def hasStringQuery (c : Cell) : Bool :=
  match truthyOr (resolveData c).1.query (resolveData c).1.source with
  | some (.s _) => true
  | _ => false

/-- Claim C5's asserted count: every eligible DATA/SQL cell. -/
def c5ClaimCount (ids : List String) (cells : List Cell) : Nat :=
  (cells.filter (fun c => isDataSqlType c && claimEligible ids c)).length

/-- The corrected count: only eligible DATA/SQL cells that actually carry a
string query/source payload. -/
def c5AmendedCount (ids : List String) (cells : List Cell) : Nat :=
  (cells.filter (fun c => isDataSqlType c && (claimEligible ids c && hasStringQuery c))).length

theorem connInSet_nil (v : Option Val) : connInSet v [] = false := by
  cases v with
  | none => rfl
  | some x => cases x <;> rfl

/-- The code's `should_process` decision coincides with the claim's
eligibility rule. -/
theorem shouldProcess_eq_claimEligible (ids : List String) (c : Cell) :
    shouldProcess ids c = claimEligible ids c := by
  cases ids with
  | nil => simp [shouldProcess, claimEligible, connInSet_nil]
  | cons a l => simp [shouldProcess, claimEligible]

theorem sqlStep_count {m : SchemaMap} {fm : List (String × String)}
    {ids : List String} {target : String} {c c' : Cell} {k : Nat}
    (h : sqlStep m fm ids target c = .ok (c', k)) :
    k = if shouldProcess ids c && hasStringQuery c then 1 else 0 := by
  simp only [sqlStep] at h
  by_cases hsp : shouldProcess ids c = true
  · rw [if_pos hsp] at h
    rw [hsp, Bool.true_and]
    rcases hq : truthyOr (resolveData c).1.query (resolveData c).1.source with _ | w
    · simp only [hq, Except.ok.injEq, Prod.mk.injEq] at h
      simp [hasStringQuery, hq, ← h.2]
    · cases w with
      | s qs =>
        simp only [hq] at h
        rcases happ : apply_sql_rewrites m fm qs with e | rw0
        · simp only [happ] at h; exact absurd h (by simp)
        · simp only [happ, Except.ok.injEq, Prod.mk.injEq] at h
          simp [hasStringQuery, hq, ← h.2]
      | b x =>
        simp only [hq, Except.ok.injEq, Prod.mk.injEq] at h
        simp [hasStringQuery, hq, ← h.2]
      | i n =>
        simp only [hq, Except.ok.injEq, Prod.mk.injEq] at h
        simp [hasStringQuery, hq, ← h.2]
      | null =>
        simp only [hq, Except.ok.injEq, Prod.mk.injEq] at h
        simp [hasStringQuery, hq, ← h.2]
  · rw [if_neg hsp] at h
    simp only [Except.ok.injEq, Prod.mk.injEq] at h
    have : shouldProcess ids c = false := by revert hsp; cases shouldProcess ids c <;> simp
    simp [this, ← h.2]
theorem processCell_count {m : SchemaMap} {fm : List (String × String)}
    {ids : List String} {target : String} {c c' : Cell} {k : Nat}
    (h : processCell m fm ids target c = .ok (c', k)) :
    k = if isDataSqlType c && (claimEligible ids c && hasStringQuery c) then 1 else 0 := by
  unfold processCell at h
  rcases hct : resolveCellType c with _ | v
  · rw [hct] at h; exact absurd h (by simp)
  · cases v with
    | s t =>
      simp only [hct] at h
      by_cases hI : t = "INPUT"
      · rw [if_pos hI] at h
        simp only [Except.ok.injEq, Prod.mk.injEq] at h
        have hds : isDataSqlType c = false := by
          simp only [isDataSqlType, hct, hI]; decide
        simp [hds, ← h.2]
      · rw [if_neg hI] at h
        by_cases hDS : pyUpper t = "DATA" ∨ pyUpper t = "SQL"
        · rw [if_pos hDS] at h
          have hds : isDataSqlType c = true := by
            simp only [isDataSqlType, hct, if_pos hDS]
          rw [sqlStep_count h, shouldProcess_eq_claimEligible, hds, Bool.true_and]
        · rw [if_neg hDS] at h
          simp only [Except.ok.injEq, Prod.mk.injEq] at h
          have hds : isDataSqlType c = false := by
            simp only [isDataSqlType, hct, if_neg hDS]
          simp [hds, ← h.2]
    | b x => simp only [hct] at h; exact absurd h (by simp)
    | i n => simp only [hct] at h; exact absurd h (by simp)
    | null => simp only [hct] at h; exact absurd h (by simp)

theorem processCells_count {m : SchemaMap} {fm : List (String × String)}
    {ids : List String} {target : String} :
    ∀ {cells : List Cell} {out : List Cell × Nat},
      processCells m fm ids target cells = .ok out →
      out.2 = c5AmendedCount ids cells := by
  intro cells
  induction cells with
  | nil =>
    intro out h
    simp only [processCells, Except.ok.injEq] at h
    simp [← h, c5AmendedCount]
  | cons c cs ih =>
    intro out h
    rcases processCells_cons_inv h with ⟨r, rs, hc, hcs, hout⟩
    have h1 : r.2 = if isDataSqlType c && (claimEligible ids c && hasStringQuery c)
        then 1 else 0 := processCell_count (by rw [hc])
    have h2 : rs.2 = c5AmendedCount ids cs := ih hcs
    subst hout
    cases hp : (isDataSqlType c && (claimEligible ids c && hasStringQuery c)) with
    | true =>
      rw [hp] at h1
      simp only [if_pos rfl] at h1
      simp [c5AmendedCount, List.filter_cons, hp, h1, h2]
      omega
    | false =>
      rw [hp] at h1
      simp only [Bool.false_eq_true, if_neg (by simp : ¬ False)] at h1
      simp [c5AmendedCount, List.filter_cons, hp, h1, h2]

/-- C5 amended: whenever `transform_hex_yaml` returns, the rewritten-cell
count equals the number of DATA/SQL cells that satisfied the eligibility rule
*and* carried a string query/source payload. -/
theorem c5_count_amended (m : SchemaMap) (fm : List (String × String)) (doc : Document)
    (target : String) (rsIds : Option (List String)) (d' : Document) (n : Nat)
    (h : transform_hex_yaml m fm doc target rsIds = .ok (d', n)) :
    n = c5AmendedCount (normalizeIds rsIds) doc.cells := by
  unfold transform_hex_yaml at h
  rcases hpc : processCells m fm (normalizeIds rsIds) target doc.cells with e | r
  · simp only [hpc, Bind.bind, Except.bind] at h; exact absurd h (by simp)
  · simp only [hpc, Bind.bind, Except.bind, Except.ok.injEq, Prod.mk.injEq] at h
    rw [← h.2]
    exact processCells_count hpc

def c5cexCell : Cell :=
  { type := some (.s "DATA"), data := some { dataConnectionId := some (.s "R1") } }

def c5cexCellOut : Cell :=
  { type := some (.s "DATA"), data := some { dataConnectionId := some (.s "T") } }

/-- C5 counterexample: a DATA cell whose connection id is in the source set
but whose payload has no query/source text is eligible — the claim counts it —
yet `transform_hex_yaml` returns a rewritten-cell count of 0 for it. -/
theorem c5_count_counterexample :
    transform_hex_yaml get_hardcoded_schema_map [] { cells := [c5cexCell] } "T"
        (some ["R1"]) = .ok ({ cells := [c5cexCellOut] }, 0) ∧
    c5ClaimCount ["R1"] [c5cexCell] = 1 := by
  constructor <;> decide

theorem c5_count_amended_witness :
    (0 : Nat) = c5AmendedCount (normalizeIds (some ["R1"]))
      ({ cells := [c5cexCell] } : Document).cells :=
  c5_count_amended get_hardcoded_schema_map [] { cells := [c5cexCell] } "T" (some ["R1"])
    { cells := [c5cexCellOut] } 0 (by decide)

/-! ## Connection-id update facts (claims C10 and C6) -/

/-- `resolveData` ignores the top-level connection id. -/
theorem resolveData_set_top (c : Cell) (v : Option Val) :
    resolveData { c with dataConnectionId := v } = resolveData c := rfl

/-- Writing the resolved dict back unchanged is a no-op. -/
theorem putData_resolved_self (c : Cell) :
    putData c (resolveData c).2 (resolveData c).1 = c := by
  rcases c with ⟨ty, cty, dc, dat, cfg⟩
  cases dat with
  | none =>
    cases cfg with
    | none => rfl
    | some d => rfl
  | some d0 =>
    by_cases ht : dictTruthy d0 = true
    · simp [resolveData, ht, putData]
    · have ht' : dictTruthy d0 = false := by revert ht; cases dictTruthy d0 <;> simp
      cases cfg with
      | none => simp [resolveData, resolveConfig, ht', putData]
      | some d => simp [resolveData, resolveConfig, ht', putData]

/-- Writing a dict of equal truthiness back into a non-fresh slot resolves to
that dict in the same slot. -/
theorem resolveData_putData_self (c : Cell) (D : DataDict)
    (hT : dictTruthy D = dictTruthy (resolveData c).1)
    (hne : (resolveData c).2 ≠ .freshSlot) :
    resolveData (putData c (resolveData c).2 D) = (D, (resolveData c).2) := by
  rcases c with ⟨ty, cty, dc, dat, cfg⟩
  cases dat with
  | none =>
    cases cfg with
    | none => exact absurd rfl hne
    | some d =>
      simp [resolveData, resolveConfig, putData]
  | some d0 =>
    by_cases ht : dictTruthy d0 = true
    · simp only [resolveData, ht, if_pos rfl, putData] at hT ⊢
      simp [hT, ht]
    · have ht' : dictTruthy d0 = false := by revert ht; cases dictTruthy d0 <;> simp
      cases cfg with
      | none =>
        exact absurd (by simp [resolveData, resolveConfig, ht']) hne
      | some d =>
        simp only [resolveData, resolveConfig, ht', putData] at hT ⊢
        simp [ht']


theorem dictTruthy_set_dcid (d : DataDict) (v : Val)
    (h : d.dataConnectionId.isSome = true) :
    dictTruthy { d with dataConnectionId := some v } = dictTruthy d := by
  simp [dictTruthy, h]

/-- The step an eligible DATA/SQL cell without string query text takes:
connection-id update only, no SQL write, count 0. -/
theorem processCell_eligible_noquery (m : SchemaMap) (fm : List (String × String))
    (ids : List String) (target : String) (c : Cell) (t : String)
    (hty : resolveCellType c = some (.s t))
    (hDS : pyUpper t = "DATA" ∨ pyUpper t = "SQL")
    (hsp : shouldProcess ids c = true)
    (hq : hasStringQuery c = false) :
    processCell m fm ids target c =
      .ok (putData (connUpdate target c (resolveData c).1).1 (resolveData c).2
        (connUpdate target c (resolveData c).1).2, 0) := by
  have hI : t ≠ "INPUT" := by
    rintro rfl
    exact absurd hDS (by decide)
  unfold processCell
  simp only [hty, if_neg hI, if_pos hDS]
  simp only [sqlStep, hsp, if_pos rfl]
  rcases hq0 : truthyOr (resolveData c).1.query (resolveData c).1.source with _ | w
  · simp [hq0]
  · cases w with
    | s qs =>
      have hq1 : hasStringQuery c = true := by simp [hasStringQuery, hq0]
      rw [hq1] at hq
      exact Bool.noConfusion hq
    | b x => simp [hq0]
    | i nn => simp [hq0]
    | null => simp [hq0]


def c10cexCell : Cell :=
  { type := some (.s "DATA"), dataConnectionId := some (.s "X"),
    data := some { dataConnectionId := some (.s "R1") } }

def c10cexCellOut : Cell :=
  { type := some (.s "DATA"), dataConnectionId := some (.s "T"),
    data := some { dataConnectionId := some (.s "R1") } }

/-- C10 counterexample: a DATA cell carrying the connection id in *both* the
cell-level and the payload-level slot, eligible via the payload-level id
`R1`, with no query text.  The transformer writes the target id only into the
cell-level slot, so the connection id its own eligibility logic reads is
still `R1`, not the target — the claim's "overwrites that cell's connection
id with the target connection id" fails. -/
theorem c10_conn_update_counterexample :
    transform_hex_yaml get_hardcoded_schema_map [] { cells := [c10cexCell] } "T"
        (some ["R1"]) = .ok ({ cells := [c10cexCellOut] }, 0) ∧
    truthyOr (resolveData c10cexCellOut).1.dataConnectionId
      c10cexCellOut.dataConnectionId = some (.s "R1") ∧
    ("R1" : String) ≠ "T" := by
  refine ⟨?_, ?_, ?_⟩ <;> decide

/-- C10 amended: an eligible DATA/SQL cell (connection id in the source set)
without string query/source text still gets a connection-id update — written
to the cell-level slot if that key is present, otherwise to the payload slot,
so with both slots present the payload-level id that eligibility reads keeps
its old value — while no SQL text is written and the rewritten-cell count is
left unchanged. -/
theorem c10_conn_update_amended (m : SchemaMap) (fm : List (String × String))
    (ids : List String) (target : String) (c : Cell) (t : String)
    (hty : resolveCellType c = some (.s t))
    (hDS : pyUpper t = "DATA" ∨ pyUpper t = "SQL")
    (hids : ids ≠ [])
    (hconn : connInSet (truthyOr (resolveData c).1.dataConnectionId
      c.dataConnectionId) ids = true)
    (hq : hasStringQuery c = false) :
    ∃ c', processCell m fm ids target c = .ok (c', 0) ∧
      (resolveData c').1.query = (resolveData c).1.query ∧
      (resolveData c').1.source = (resolveData c).1.source ∧
      (c.dataConnectionId.isSome = true →
        c'.dataConnectionId = some (.s target) ∧
        (resolveData c').1.dataConnectionId = (resolveData c).1.dataConnectionId) ∧
      (c.dataConnectionId = none →
        c'.dataConnectionId = none ∧
        (resolveData c').1.dataConnectionId = some (.s target)) := by
  have hsp : shouldProcess ids c = true := by
    unfold shouldProcess
    rw [if_pos hids]
    exact hconn
  have hstep := processCell_eligible_noquery m fm ids target c t hty hDS hsp hq
  rcases htop : c.dataConnectionId with _ | v
  · -- no cell-level slot: the payload slot gets the write
    have hdict : (resolveData c).1.dataConnectionId.isSome = true := by
      rcases hdc : (resolveData c).1.dataConnectionId with _ | w
      · simp only [truthyOr, optTruthy, hdc, htop] at hconn
        simp [connInSet] at hconn
      · rfl
    have hcu : connUpdate target c (resolveData c).1 =
        (c, { (resolveData c).1 with dataConnectionId := some (.s target) }) := by
      unfold connUpdate
      rw [htop]
      simp [hdict]
    have hne : (resolveData c).2 ≠ .freshSlot := by
      intro hfs
      have : (resolveData c).1 = ({} : DataDict) := by
        rcases c with ⟨ty, cty, dc, dat, cfg⟩
        cases dat with
        | none =>
          cases cfg with
          | none => rfl
          | some d => simp [resolveData, resolveConfig] at hfs
        | some d0 =>
          by_cases ht : dictTruthy d0 = true
          · simp [resolveData, ht] at hfs
          · have ht' : dictTruthy d0 = false := by
              revert ht; cases dictTruthy d0 <;> simp
            cases cfg with
            | none => simp [resolveData, resolveConfig, ht']
            | some d => simp [resolveData, resolveConfig, ht'] at hfs
      rw [this] at hdict
      exact Bool.noConfusion hdict
    have hres := resolveData_putData_self c
      { (resolveData c).1 with dataConnectionId := some (.s target) }
      (dictTruthy_set_dcid (resolveData c).1 (.s target) hdict) hne
    refine ⟨putData c (resolveData c).2
        { (resolveData c).1 with dataConnectionId := some (.s target) },
      ?_, ?_, ?_, ?_, ?_⟩
    · rw [hstep, hcu]
    · rw [hres]
    · rw [hres]
    · intro hs
      exact Bool.noConfusion hs
    · intro _
      refine ⟨?_, by rw [hres]⟩
      rcases hsl : (resolveData c).2 with _ | _ | _ <;>
        simp [putData, hsl, htop]
  · -- cell-level slot present: only the top-level id is written
    have hcu : connUpdate target c (resolveData c).1 =
        ({ c with dataConnectionId := some (.s target) }, (resolveData c).1) := by
      unfold connUpdate
      rw [htop]
      simp
    have hput : putData { c with dataConnectionId := some (.s target) }
        (resolveData c).2 (resolveData c).1 =
        { c with dataConnectionId := some (.s target) } := by
      have hx := putData_resolved_self { c with dataConnectionId := some (.s target) }
      rw [resolveData_set_top] at hx
      exact hx
    refine ⟨{ c with dataConnectionId := some (.s target) }, ?_, ?_, ?_, ?_, ?_⟩
    · rw [hstep, hcu, hput]
    · rw [resolveData_set_top]
    · rw [resolveData_set_top]
    · intro _
      exact ⟨rfl, by rw [resolveData_set_top]⟩
    · intro hn
      exact Option.noConfusion hn

theorem c10_conn_update_amended_witness :
    ∃ c', processCell get_hardcoded_schema_map [] ["R1"] "T" c10cexCell = .ok (c', 0) ∧
      (resolveData c').1.query = (resolveData c10cexCell).1.query ∧
      (resolveData c').1.source = (resolveData c10cexCell).1.source ∧
      (c10cexCell.dataConnectionId.isSome = true →
        c'.dataConnectionId = some (.s "T") ∧
        (resolveData c').1.dataConnectionId =
          (resolveData c10cexCell).1.dataConnectionId) ∧
      (c10cexCell.dataConnectionId = none →
        c'.dataConnectionId = none ∧
        (resolveData c').1.dataConnectionId = some (.s "T")) :=
  c10_conn_update_amended get_hardcoded_schema_map [] ["R1"] "T" c10cexCell "DATA"
    (by decide) (by decide) (by decide) (by decide) (by decide)


/-! ## Connection-slot idempotence (claim C6) -/

/-- The three places a cell can carry a connection id: the top-level key and
the `data` / `config` payload dicts. -/
def cellConnSlots (c : Cell) : Option Val × Option (Option Val) × Option (Option Val) :=
  (c.dataConnectionId, c.data.map (fun d => d.dataConnectionId),
    c.config.map (fun d => d.dataConnectionId))

theorem putData_top (c : Cell) (s : DataSlot) (d : DataDict) :
    (putData c s d).dataConnectionId = c.dataConnectionId := by
  cases s <;> rfl

theorem resolveCellType_putData (c : Cell) (s : DataSlot) (d : DataDict) :
    resolveCellType (putData c s d) = resolveCellType c := by
  cases s <;> rfl

theorem resolveCellType_connUpdate_fst (t : String) (c : Cell) (d : DataDict) :
    resolveCellType (connUpdate t c d).1 = resolveCellType c := by
  unfold connUpdate
  split <;> try rfl
  split <;> rfl

theorem connUpdate_fst_top (t : String) (c : Cell) (d : DataDict) :
    (connUpdate t c d).1.dataConnectionId =
      if c.dataConnectionId.isSome = true then some (.s t) else c.dataConnectionId := by
  unfold connUpdate
  split
  · next h => simp [h]
  · next h =>
    have h' : c.dataConnectionId.isSome = false := by
      revert h; cases c.dataConnectionId.isSome <;> simp
    split <;> simp [h']

theorem connUpdate_fst_data (t : String) (c : Cell) (d : DataDict) :
    (connUpdate t c d).1.data = c.data := by
  unfold connUpdate
  split <;> try rfl
  split <;> rfl

theorem connUpdate_fst_config (t : String) (c : Cell) (d : DataDict) :
    (connUpdate t c d).1.config = c.config := by
  unfold connUpdate
  split <;> try rfl
  split <;> rfl

theorem resolveData_connUpdate_fst (t : String) (c : Cell) (d : DataDict) :
    resolveData (connUpdate t c d).1 = resolveData c := by
  unfold connUpdate
  split <;> try rfl
  split <;> rfl

theorem connUpdate_snd_dcid (t : String) (c : Cell) (d : DataDict) :
    (connUpdate t c d).2.dataConnectionId =
      if c.dataConnectionId.isSome = true then d.dataConnectionId
      else if d.dataConnectionId.isSome = true then some (.s t)
      else d.dataConnectionId := by
  unfold connUpdate
  split
  · next h => simp [h]
  · next h =>
    have h' : c.dataConnectionId.isSome = false := by
      revert h; cases c.dataConnectionId.isSome <;> simp
    split
    · next h2 => simp [h', h2]
    · next h2 =>
      have h2' : d.dataConnectionId.isSome = false := by
        revert h2; cases d.dataConnectionId.isSome <;> simp
      simp [h', h2']

theorem dictTruthy_set_query (d : DataDict) (v : Val) (h : d.query.isSome = true) :
    dictTruthy { d with query := some v } = dictTruthy d := by
  simp [dictTruthy, h]

theorem dictTruthy_set_source (d : DataDict) (v : Val) (h : d.source.isSome = true) :
    dictTruthy { d with source := some v } = dictTruthy d := by
  simp [dictTruthy, h]

theorem dictTruthy_connUpdate_snd (t : String) (c : Cell) (d : DataDict) :
    dictTruthy (connUpdate t c d).2 = dictTruthy d := by
  unfold connUpdate
  split
  · rfl
  · split
    · next h2 => exact dictTruthy_set_dcid d (.s t) h2
    · rfl

theorem resolveData_dataSlot {c : Cell} {d : DataDict}
    (h : resolveData c = (d, .dataSlot)) : c.data = some d := by
  rcases c with ⟨ty, cty, dc, dat, cfg⟩
  cases dat with
  | none =>
    cases cfg with
    | none => exact absurd (congrArg Prod.snd h) (by simp [resolveData, resolveConfig])
    | some e => exact absurd (congrArg Prod.snd h) (by simp [resolveData, resolveConfig])
  | some d0 =>
    by_cases ht : dictTruthy d0 = true
    · simp only [resolveData, ht, if_pos rfl] at h
      exact congrArg (fun x => some x) (congrArg Prod.fst h)
    · have ht' : dictTruthy d0 = false := by revert ht; cases dictTruthy d0 <;> simp
      cases cfg with
      | none =>
        exact absurd (congrArg Prod.snd h) (by simp [resolveData, resolveConfig, ht'])
      | some e =>
        exact absurd (congrArg Prod.snd h) (by simp [resolveData, resolveConfig, ht'])

theorem resolveData_configSlot {c : Cell} {d : DataDict}
    (h : resolveData c = (d, .configSlot)) : c.config = some d := by
  rcases c with ⟨ty, cty, dc, dat, cfg⟩
  cases dat with
  | none =>
    cases cfg with
    | none => exact absurd (congrArg Prod.snd h) (by simp [resolveData, resolveConfig])
    | some e =>
      have := congrArg Prod.fst h
      simp [resolveData, resolveConfig] at this
      simp [this]
  | some d0 =>
    by_cases ht : dictTruthy d0 = true
    · exact absurd (congrArg Prod.snd h) (by simp [resolveData, ht])
    · have ht' : dictTruthy d0 = false := by revert ht; cases dictTruthy d0 <;> simp
      cases cfg with
      | none =>
        exact absurd (congrArg Prod.snd h) (by simp [resolveData, resolveConfig, ht'])
      | some e =>
        have := congrArg Prod.fst h
        simp [resolveData, resolveConfig, ht'] at this
        simp [this]

theorem resolveData_freshSlot {c : Cell}
    (h : (resolveData c).2 = .freshSlot) : (resolveData c).1 = ({} : DataDict) := by
  rcases c with ⟨ty, cty, dc, dat, cfg⟩
  cases dat with
  | none =>
    cases cfg with
    | none => rfl
    | some e => simp [resolveData, resolveConfig] at h
  | some d0 =>
    by_cases ht : dictTruthy d0 = true
    · simp [resolveData, ht] at h
    · have ht' : dictTruthy d0 = false := by revert ht; cases dictTruthy d0 <;> simp
      cases cfg with
      | none => simp [resolveData, resolveConfig, ht']
      | some e => simp [resolveData, resolveConfig, ht'] at h

/-- Writing into a slot a dict whose connection id agrees with what the slot
already holds leaves all three connection slots unchanged. -/
theorem cellConnSlots_putData (c : Cell) (s : DataSlot) (D Dold : DataDict)
    (hda : s = .dataSlot → c.data = some Dold)
    (hcf : s = .configSlot → c.config = some Dold)
    (hdc : D.dataConnectionId = Dold.dataConnectionId) :
    cellConnSlots (putData c s D) = cellConnSlots c := by
  cases s with
  | dataSlot =>
    have h := hda rfl
    simp [cellConnSlots, putData, h, hdc]
  | configSlot =>
    have h := hcf rfl
    simp [cellConnSlots, putData, h, hdc]
  | freshSlot => rfl


theorem sqlStep_not_eligible {m : SchemaMap} {fm : List (String × String)}
    {ids : List String} {target : String} {c : Cell}
    (hsp : shouldProcess ids c = false) :
    sqlStep m fm ids target c = .ok (c, 0) := by
  simp [sqlStep, hsp]

theorem querySourceWrites_dcid (A : DataDict) (v w : Val) :
    ((if ((if A.query.isSome = true then { A with query := some v } else A) :
          DataDict).source.isSome = true then
        { (if A.query.isSome = true then { A with query := some v } else A) with
          source := some w }
      else (if A.query.isSome = true then { A with query := some v } else A)) :
        DataDict).dataConnectionId = A.dataConnectionId := by
  rcases A with ⟨it, dv, q, s, dc, ex⟩
  cases q <;> cases s <;> rfl

theorem querySourceWrites_truthy (A : DataDict) (v w : Val) :
    dictTruthy ((if ((if A.query.isSome = true then { A with query := some v } else A) :
          DataDict).source.isSome = true then
        { (if A.query.isSome = true then { A with query := some v } else A) with
          source := some w }
      else (if A.query.isSome = true then { A with query := some v } else A)) :
        DataDict) = dictTruthy A := by
  rcases A with ⟨it, dv, q, s, dc, ex⟩
  cases q <;> cases s <;> simp [dictTruthy]

/-- Structure of an eligible `sqlStep`: the written-back cell is the
connection-updated cell with a dict whose connection id and truthiness the
query/source writes preserved. -/
theorem sqlStep_eligible_shape {m : SchemaMap} {fm : List (String × String)}
    {ids : List String} {target : String} {c c1 : Cell} {k : Nat}
    (hsp : shouldProcess ids c = true)
    (h : sqlStep m fm ids target c = .ok (c1, k)) :
    ∃ D, c1 = putData (connUpdate target c (resolveData c).1).1 (resolveData c).2 D ∧
      D.dataConnectionId = (connUpdate target c (resolveData c).1).2.dataConnectionId ∧
      dictTruthy D = dictTruthy (resolveData c).1 := by
  simp only [sqlStep] at h
  rw [if_pos hsp] at h
  rcases hq : truthyOr (resolveData c).1.query (resolveData c).1.source with _ | w
  · simp only [hq, Except.ok.injEq, Prod.mk.injEq] at h
    exact ⟨(connUpdate target c (resolveData c).1).2, h.1.symm, rfl,
      dictTruthy_connUpdate_snd target c (resolveData c).1⟩
  · cases w with
    | s qs =>
      rcases happ : apply_sql_rewrites m fm qs with e | rw0
      · simp only [hq, happ] at h
        exact absurd h (by simp)
      · simp only [hq, happ, Except.ok.injEq, Prod.mk.injEq] at h
        exact ⟨_, h.1.symm,
          querySourceWrites_dcid (connUpdate target c (resolveData c).1).2 (.s rw0) (.s rw0),
          (querySourceWrites_truthy (connUpdate target c (resolveData c).1).2 (.s rw0)
            (.s rw0)).trans (dictTruthy_connUpdate_snd target c (resolveData c).1)⟩
    | b x =>
      simp only [hq, Except.ok.injEq, Prod.mk.injEq] at h
      exact ⟨(connUpdate target c (resolveData c).1).2, h.1.symm, rfl,
        dictTruthy_connUpdate_snd target c (resolveData c).1⟩
    | i nn =>
      simp only [hq, Except.ok.injEq, Prod.mk.injEq] at h
      exact ⟨(connUpdate target c (resolveData c).1).2, h.1.symm, rfl,
        dictTruthy_connUpdate_snd target c (resolveData c).1⟩
    | null =>
      simp only [hq, Except.ok.injEq, Prod.mk.injEq] at h
      exact ⟨(connUpdate target c (resolveData c).1).2, h.1.symm, rfl,
        dictTruthy_connUpdate_snd target c (resolveData c).1⟩


/-- A second conditional write of the target id leaves the top-level slot as
the first write left it. -/
theorem top_idem {target : String} {c c1 : Cell}
    (htop1 : c1.dataConnectionId =
      if c.dataConnectionId.isSome = true then some (.s target)
      else c.dataConnectionId) :
    (if c1.dataConnectionId.isSome = true then some (Val.s target)
      else c1.dataConnectionId) = c1.dataConnectionId := by
  rcases hcy : c.dataConnectionId with _ | v0
  · rw [hcy] at htop1
    simp only [Option.isSome_none, Bool.false_eq_true, if_false] at htop1
    rw [htop1]
    rfl
  · rw [hcy] at htop1
    simp only [Option.isSome_some, if_pos rfl] at htop1
    rw [htop1]
    rfl

/-- Processing a DATA/SQL cell twice leaves every connection-id slot where the
first pass left it. -/
theorem sqlStep_conn_idem {m : SchemaMap} {fm : List (String × String)}
    {ids : List String} {target : String} {c c1 c2 : Cell} {k1 k2 : Nat}
    (h1 : sqlStep m fm ids target c = .ok (c1, k1))
    (h2 : sqlStep m fm ids target c1 = .ok (c2, k2)) :
    cellConnSlots c2 = cellConnSlots c1 := by
  by_cases hsp1 : shouldProcess ids c = true
  case neg =>
    have hsp1' : shouldProcess ids c = false := by
      revert hsp1; cases shouldProcess ids c <;> simp
    rw [sqlStep_not_eligible hsp1'] at h1
    simp only [Except.ok.injEq, Prod.mk.injEq] at h1
    have hc1 : c1 = c := h1.1.symm
    subst hc1
    rw [sqlStep_not_eligible hsp1'] at h2
    simp only [Except.ok.injEq, Prod.mk.injEq] at h2
    rw [← h2.1]
  case pos =>
    obtain ⟨D, hc1, hDdc, hDt⟩ := sqlStep_eligible_shape hsp1 h1
    have htop1 : c1.dataConnectionId =
        if c.dataConnectionId.isSome = true then some (.s target)
        else c.dataConnectionId := by
      rw [hc1, putData_top, connUpdate_fst_top]
    by_cases hfs : (resolveData c).2 = DataSlot.freshSlot
    · -- fresh dict: the write-back is a no-op; only the top-level slot matters
      have hc1' : c1 = (connUpdate target c (resolveData c).1).1 := by
        rw [hc1, hfs]; rfl
      have hres1 : resolveData c1 = resolveData c := by
        rw [hc1', resolveData_connUpdate_fst]
      by_cases hsp2 : shouldProcess ids c1 = true
      · obtain ⟨D2, hc2, hD2dc, hD2t⟩ := sqlStep_eligible_shape hsp2 h2
        have hfs1 : (resolveData c1).2 = DataSlot.freshSlot := by rw [hres1]; exact hfs
        have hc2' : c2 = (connUpdate target c1 (resolveData c1).1).1 := by
          rw [hc2, hfs1]; rfl
        unfold cellConnSlots
        rw [hc2', connUpdate_fst_data, connUpdate_fst_config, connUpdate_fst_top,
          top_idem htop1]
      · have hsp2' : shouldProcess ids c1 = false := by
          revert hsp2; cases shouldProcess ids c1 <;> simp
        rw [sqlStep_not_eligible hsp2'] at h2
        simp only [Except.ok.injEq, Prod.mk.injEq] at h2
        rw [← h2.1]
    · -- a real payload slot
      have hres1 : resolveData c1 = (D, (resolveData c).2) := by
        have hx := resolveData_putData_self (connUpdate target c (resolveData c).1).1 D
          (by rw [resolveData_connUpdate_fst]; exact hDt)
          (by rw [resolveData_connUpdate_fst]; exact hfs)
        rw [resolveData_connUpdate_fst] at hx
        rw [hc1]
        exact hx
      by_cases hsp2 : shouldProcess ids c1 = true
      · obtain ⟨D2, hc2, hD2dc, hD2t⟩ := sqlStep_eligible_shape hsp2 h2
        rw [hres1] at hc2 hD2dc
        have hD2D : D2.dataConnectionId = D.dataConnectionId := by
          rw [hD2dc, connUpdate_snd_dcid]
          rcases hcy : c.dataConnectionId with _ | v0
          · have h1top : c1.dataConnectionId = none := by
              rw [htop1, hcy]; rfl
            rw [h1top]
            simp only [Option.isSome_none, Bool.false_eq_true, if_false]
            have hDval : D.dataConnectionId =
                if (resolveData c).1.dataConnectionId.isSome = true then some (.s target)
                else (resolveData c).1.dataConnectionId := by
              rw [hDdc, connUpdate_snd_dcid, hcy]
              rfl
            rcases hdd : (resolveData c).1.dataConnectionId with _ | w
            · rw [hdd] at hDval
              simp only [Option.isSome_none, Bool.false_eq_true, if_false] at hDval
              rw [hDval]
              rfl
            · rw [hdd] at hDval
              simp only [Option.isSome_some, if_pos rfl] at hDval
              rw [hDval]
              rfl
          · have h1top : c1.dataConnectionId = some (.s target) := by
              rw [htop1, hcy]; rfl
            rw [h1top]
            rfl
        have htop2 : c2.dataConnectionId = c1.dataConnectionId := by
          rw [hc2, putData_top, connUpdate_fst_top]
          exact top_idem htop1
        have hdat2 : c2.data.map (fun d => d.dataConnectionId) =
            c1.data.map (fun d => d.dataConnectionId) := by
          rw [hc2]
          cases hsl : (resolveData c).2 with
          | dataSlot =>
            have hdat : c1.data = some D := resolveData_dataSlot (by rw [hres1, hsl])
            simp [hsl, putData, connUpdate_fst_data, hdat, hD2D]
          | configSlot =>
            simp [hsl, putData, connUpdate_fst_data]
          | freshSlot => exact absurd hsl hfs
        have hcfg2 : c2.config.map (fun d => d.dataConnectionId) =
            c1.config.map (fun d => d.dataConnectionId) := by
          rw [hc2]
          cases hsl : (resolveData c).2 with
          | dataSlot =>
            simp [hsl, putData, connUpdate_fst_config]
          | configSlot =>
            have hcf : c1.config = some D := resolveData_configSlot (by rw [hres1, hsl])
            simp [hsl, putData, connUpdate_fst_config, hcf, hD2D]
          | freshSlot => exact absurd hsl hfs
        unfold cellConnSlots
        rw [htop2, hdat2, hcfg2]
      · have hsp2' : shouldProcess ids c1 = false := by
          revert hsp2; cases shouldProcess ids c1 <;> simp
        rw [sqlStep_not_eligible hsp2'] at h2
        simp only [Except.ok.injEq, Prod.mk.injEq] at h2
        rw [← h2.1]


theorem resolveCellType_inputStep (c : Cell) :
    resolveCellType (inputStep c) = resolveCellType c := by
  simp only [inputStep]
  split
  all_goals try rfl
  split
  · exact resolveCellType_putData _ _ _
  · rfl

theorem cellConnSlots_inputStep (c : Cell) :
    cellConnSlots (inputStep c) = cellConnSlots c := by
  simp only [inputStep]
  split
  all_goals try rfl
  split
  · apply cellConnSlots_putData c (resolveData c).2 _ (resolveData c).1
    · intro hs
      exact resolveData_dataSlot (by rw [← hs])
    · intro hs
      exact resolveData_configSlot (by rw [← hs])
    · split
      all_goals try rfl
      split_ifs <;> rfl
  · rfl

theorem resolveCellType_sqlStep {m : SchemaMap} {fm : List (String × String)}
    {ids : List String} {target : String} {c c1 : Cell} {k : Nat}
    (h : sqlStep m fm ids target c = .ok (c1, k)) :
    resolveCellType c1 = resolveCellType c := by
  by_cases hsp : shouldProcess ids c = true
  · obtain ⟨D, hc1, -, -⟩ := sqlStep_eligible_shape hsp h
    rw [hc1, resolveCellType_putData, resolveCellType_connUpdate_fst]
  · have hsp' : shouldProcess ids c = false := by
      revert hsp; cases shouldProcess ids c <;> simp
    rw [sqlStep_not_eligible hsp'] at h
    simp only [Except.ok.injEq, Prod.mk.injEq] at h
    rw [← h.1]

/-- Processing any cell twice leaves every connection-id slot where the first
pass left it. -/
theorem processCell_conn_idem {m : SchemaMap} {fm : List (String × String)}
    {ids : List String} {target : String} {c c1 c2 : Cell} {k1 k2 : Nat}
    (h1 : processCell m fm ids target c = .ok (c1, k1))
    (h2 : processCell m fm ids target c1 = .ok (c2, k2)) :
    cellConnSlots c2 = cellConnSlots c1 := by
  unfold processCell at h1
  rcases hct : resolveCellType c with _ | v
  · rw [hct] at h1; exact absurd h1 (by simp)
  · cases v with
    | s t =>
      simp only [hct] at h1
      by_cases hI : t = "INPUT"
      · rw [if_pos hI] at h1
        simp only [Except.ok.injEq, Prod.mk.injEq] at h1
        have hc1 : c1 = inputStep c := h1.1.symm
        have hty1 : resolveCellType c1 = some (.s t) := by
          rw [hc1, resolveCellType_inputStep, hct]
        unfold processCell at h2
        simp only [hty1] at h2
        rw [if_pos hI] at h2
        simp only [Except.ok.injEq, Prod.mk.injEq] at h2
        rw [← h2.1]
        exact cellConnSlots_inputStep c1
      · by_cases hDS : pyUpper t = "DATA" ∨ pyUpper t = "SQL"
        · rw [if_neg hI, if_pos hDS] at h1
          have hty1 : resolveCellType c1 = some (.s t) := by
            rw [resolveCellType_sqlStep h1, hct]
          unfold processCell at h2
          simp only [hty1] at h2
          rw [if_neg hI, if_pos hDS] at h2
          exact sqlStep_conn_idem h1 h2
        · rw [if_neg hI, if_neg hDS] at h1
          simp only [Except.ok.injEq, Prod.mk.injEq] at h1
          have hc1 : c1 = c := h1.1.symm
          unfold processCell at h2
          rw [hc1] at h2 ⊢
          simp only [hct] at h2
          rw [if_neg hI, if_neg hDS] at h2
          simp only [Except.ok.injEq, Prod.mk.injEq] at h2
          rw [← h2.1]
    | b x => simp only [hct] at h1; exact absurd h1 (by simp)
    | i nn => simp only [hct] at h1; exact absurd h1 (by simp)
    | null => simp only [hct] at h1; exact absurd h1 (by simp)

theorem processCells_conn_idem {m : SchemaMap} {fm : List (String × String)}
    {ids : List String} {target : String} :
    ∀ {cells cells1 cells2 : List Cell} {n1 n2 : Nat},
      processCells m fm ids target cells = .ok (cells1, n1) →
      processCells m fm ids target cells1 = .ok (cells2, n2) →
      cells2.map cellConnSlots = cells1.map cellConnSlots := by
  intro cells
  induction cells with
  | nil =>
    intro cells1 cells2 n1 n2 h1 h2
    simp only [processCells, Except.ok.injEq, Prod.mk.injEq] at h1
    rw [← h1.1] at h2 ⊢
    simp only [processCells, Except.ok.injEq, Prod.mk.injEq] at h2
    rw [← h2.1]
  | cons c cs ih =>
    intro cells1 cells2 n1 n2 h1 h2
    rcases processCells_cons_inv h1 with ⟨r, rs, hc, hcs, hout⟩
    have hcells1 : cells1 = r.1 :: rs.1 := congrArg Prod.fst hout
    rw [hcells1] at h2 ⊢
    rcases processCells_cons_inv h2 with ⟨r2, rs2, hc2, hcs2, hout2⟩
    have hcells2 : cells2 = r2.1 :: rs2.1 := congrArg Prod.fst hout2
    rw [hcells2]
    simp only [List.map_cons, List.cons.injEq]
    constructor
    · exact processCell_conn_idem hc hc2
    · exact ih hcs hcs2

theorem updateDefaultConn_cells (ids : List String) (t : String) (d : Document) :
    (updateDefaultConn ids t d).cells = d.cells := by
  unfold updateDefaultConn
  split <;> try rfl
  split <;> rfl

theorem updateSharedAssets_cells (ids : List String) (t : String) (d : Document) :
    (updateSharedAssets ids t d).cells = d.cells := by
  unfold updateSharedAssets
  split
  · rfl
  · split
    · rfl
    · split
      · rfl
      · rfl

theorem transform_cells_inv {m : SchemaMap} {fm : List (String × String)}
    {doc : Document} {target : String} {rsIds : Option (List String)}
    {d' : Document} {n : Nat}
    (h : transform_hex_yaml m fm doc target rsIds = .ok (d', n)) :
    processCells m fm (normalizeIds rsIds) target doc.cells = .ok (d'.cells, n) := by
  unfold transform_hex_yaml at h
  rcases hpc : processCells m fm (normalizeIds rsIds) target doc.cells with e | r
  · simp only [hpc, Bind.bind, Except.bind] at h
    exact Except.noConfusion h
  · simp only [hpc, Bind.bind, Except.bind, Except.ok.injEq, Prod.mk.injEq] at h
    rw [← h.1, ← h.2, updateSharedAssets_cells, updateDefaultConn_cells]

/-- C6: running `transform_hex_yaml` a second time on its own output, with the
same target id and the same source-connection set (not containing the target),
leaves every connection-id slot of every cell unchanged: ids already rewritten
to the target are not rewritten again. -/
theorem c6_conn_id_idempotent (m : SchemaMap) (fm : List (String × String))
    (doc : Document) (target : String) (rsIds : Option (List String))
    (d1 d2 : Document) (n1 n2 : Nat)
    (hT : target ∉ normalizeIds rsIds)
    (h1 : transform_hex_yaml m fm doc target rsIds = .ok (d1, n1))
    (h2 : transform_hex_yaml m fm d1 target rsIds = .ok (d2, n2)) :
    d2.cells.map cellConnSlots = d1.cells.map cellConnSlots :=
  processCells_conn_idem (transform_cells_inv h1) (transform_cells_inv h2)

def c6wCell : Cell :=
  { type := some (.s "SQL"), data := some { dataConnectionId := some (.s "R1") } }

def c6wCellOut : Cell :=
  { type := some (.s "SQL"), data := some { dataConnectionId := some (.s "T") } }

theorem c6_conn_id_idempotent_witness :
    ({ cells := [c6wCellOut] } : Document).cells.map cellConnSlots =
      ({ cells := [c6wCellOut] } : Document).cells.map cellConnSlots :=
  c6_conn_id_idempotent get_hardcoded_schema_map [] { cells := [c6wCell] } "T"
    (some ["R1"]) { cells := [c6wCellOut] } { cells := [c6wCellOut] } 0 0
    (by decide) (by decide) (by decide)

end HexMig
